import Mathlib

/-!
Shallow embedding of the budget-app backend ledger and budgeting engine
(`budget.service.ts`, `transaction.service.ts`, `account.service.ts`,
`goal.service.ts`, `payee.service.ts`).  Monetary values (`Prisma.Decimal`,
exact decimal arithmetic) are embedded as `ℚ`; database tables are lists of
rows; every service method that runs inside `prisma.$transaction` is a
function `Db → Except HttpError Db` where an `error` result means the whole
atomic unit rolled back and the store is unchanged.
-/

namespace BudgetApp

/-- Account types from `prisma/schema.prisma`. -/
inductive AccountType where
  | CHECKING
  | SAVINGS
  | CREDIT_CARD
  | CASH
  | LINE_OF_CREDIT
  | INVESTMENT
  | MORTGAGE
  | OTHER_ASSET
  | OTHER_LIABILITY
  deriving DecidableEq, Repr

/-- Cleared states of a transaction. -/
inductive ClearedStatus where
  | UNCLEARED
  | CLEARED
  | RECONCILED
  deriving DecidableEq, Repr

/-- Goal types from the schema. -/
inductive GoalType where
  | TARGET_BALANCE
  | TARGET_BALANCE_BY_DATE
  | MONTHLY_FUNDING
  deriving DecidableEq, Repr

/-- `HttpException(status, message)` from `middleware/errorHandler`. -/
structure HttpError where
  status : Nat
  message : String
  deriving DecidableEq, Repr

/-- Budget row: root of ownership. -/
structure Budget where
  id : Nat
  userId : Nat
  deriving DecidableEq, Repr

/-- Account row.  `paymentCategoryId` is the optional link to the synthetic
payment category of a credit-card account. -/
structure Account where
  id : Nat
  budgetId : Nat
  type : AccountType
  onBudget : Bool
  paymentCategoryId : Option Nat
  deriving DecidableEq, Repr

/-- CategoryGroup row. -/
structure CategoryGroup where
  id : Nat
  budgetId : Nat
  deriving DecidableEq, Repr

/-- Category row (belongs to a group). -/
structure Category where
  id : Nat
  groupId : Nat
  deriving DecidableEq, Repr

/-- BudgetEntry row: assigned amount for one (category, year, month);
unique on that triple in the schema. -/
structure EntryRow where
  categoryId : Nat
  year : Nat
  month : Nat
  assignedAmount : ℚ
  deriving DecidableEq, Repr

/-- Payee row, unique on (budgetId, name). -/
structure Payee where
  id : Nat
  budgetId : Nat
  name : String
  deriving DecidableEq, Repr

/-- Transaction row.  The JS `date` only ever feeds `getFullYear` /
`getMonth() + 1` and the month-window filter of the budget view, so it is
embedded as the (year, month) pair. -/
structure Txn where
  id : Nat
  budgetId : Nat
  accountId : Nat
  year : Nat
  month : Nat
  amount : ℚ
  payeeId : Option Nat
  categoryId : Option Nat
  cleared : ClearedStatus
  approved : Bool
  isTransfer : Bool
  transferGroupId : Option Nat
  transferAccountId : Option Nat
  isSplit : Bool
  deriving DecidableEq, Repr

/-- SplitTransaction child row. -/
structure SplitRow where
  transactionId : Nat
  categoryId : Nat
  amount : ℚ
  deriving DecidableEq, Repr

/-- Goal row, unique on categoryId. -/
structure GoalRow where
  categoryId : Nat
  name : String
  type : GoalType
  targetAmount : Option ℚ
  targetDate : Option Nat
  monthlyFundingAmount : Option ℚ
  deriving DecidableEq, Repr

/-- The persisted store.  `nextId` models the id/uuid generator: every id
handed out (rows, transfer group ids, payees) is `nextId` of the moment and
bumps the counter. -/
structure Db where
  budgets : List Budget
  accounts : List Account
  groups : List CategoryGroup
  categories : List Category
  entries : List EntryRow
  payees : List Payee
  txns : List Txn
  splits : List SplitRow
  goals : List GoalRow
  nextId : Nat
  deriving DecidableEq, Repr

/-- `decimal.js` `isNegative()`: strictly below zero (signed zeros do not
arise over `ℚ`). -/
def decIsNegative (q : ℚ) : Bool := q < 0

/-- `decimal.js` `isPositive()` is sign-based, so zero counts as positive. -/
def decIsPositive (q : ℚ) : Bool := 0 ≤ q

/-- `prisma.account.findUnique({ where: { id } })`. -/
def findAccount (db : Db) (id : Nat) : Option Account :=
  db.accounts.find? (fun a => a.id == id)

/-- `prisma.budget.findUnique({ where: { id } })`. -/
def findBudget (db : Db) (id : Nat) : Option Budget :=
  db.budgets.find? (fun b => b.id == id)

/-- `prisma.category.findUnique({ where: { id } })`. -/
def findCategory (db : Db) (id : Nat) : Option Category :=
  db.categories.find? (fun c => c.id == id)

/-- `prisma.categoryGroup.findUnique({ where: { id } })`. -/
def findGroup (db : Db) (id : Nat) : Option CategoryGroup :=
  db.groups.find? (fun g => g.id == id)

/-- `prisma.transaction.findUnique({ where: { id } })`. -/
def findTxn (db : Db) (id : Nat) : Option Txn :=
  db.txns.find? (fun t => t.id == id)

/-- The budget a category resolves to through its group
(`category.categoryGroup.budgetId`). -/
def categoryBudgetId (db : Db) (categoryId : Nat) : Option Nat :=
  match findCategory db categoryId with
  | none => none
  | some c => (findGroup db c.groupId).map (fun g => g.budgetId)

/-- The ownership test `category.categoryGroup.budgetId === budgetId` used
throughout the services. -/
def categoryInBudget (db : Db) (categoryId budgetId : Nat) : Bool :=
  categoryBudgetId db categoryId == some budgetId

/-- Key match for the unique (categoryId, year, month) constraint. -/
def entryMatches (e : EntryRow) (categoryId year month : Nat) : Bool :=
  e.categoryId == categoryId && e.year == year && e.month == month

/-- `prisma.budgetEntry.findUnique({ where: { categoryId_year_month } })`. -/
def findEntry (es : List EntryRow) (categoryId year month : Nat) : Option EntryRow :=
  es.find? (fun e => entryMatches e categoryId year month)

/-- Assigned amount of a (category, year, month), zero when no row exists
(the "lacking a BudgetEntry contributes 0" convention of the engine). -/
def assignedFor (es : List EntryRow) (categoryId year month : Nat) : ℚ :=
  ((findEntry es categoryId year month).map (fun e => e.assignedAmount)).getD 0

/-- Whether a BudgetEntry row exists for the key. -/
def hasEntry (es : List EntryRow) (categoryId year month : Nat) : Bool :=
  (findEntry es categoryId year month).isSome

/-- The row-creating half of `getOrCreateBudgetEntry`: append a zero row
when the key is absent. -/
def ensureEntry (es : List EntryRow) (categoryId year month : Nat) : List EntryRow :=
  if hasEntry es categoryId year month then es
  else es ++ [⟨categoryId, year, month, 0⟩]

/-- `tx.budgetEntry.update({ where: { id }, data: { assignedAmount } })`,
keyed by the unique (categoryId, year, month) triple of the row. -/
def updateEntry (es : List EntryRow) (categoryId year month : Nat) (f : ℚ → ℚ) :
    List EntryRow :=
  es.map (fun e =>
    if entryMatches e categoryId year month then
      { e with assignedAmount := f e.assignedAmount }
    else e)

/-- `BudgetService.getBudgetById`: 404 when absent, 403 when owned by a
different user. -/
def getBudgetById (db : Db) (userId budgetId : Nat) : Except HttpError Budget :=
  match findBudget db budgetId with
  | none => .error ⟨404, "Budget not found"⟩
  | some b =>
    if b.userId == userId then .ok b
    else .error ⟨403, "Forbidden: You do not own this budget"⟩

/-- `BudgetService.getOrCreateBudgetEntry`: verifies the category belongs to
the budget, then returns the existing row or creates a zero row. -/
def getOrCreateBudgetEntry (db : Db) (budgetId categoryId year month : Nat) :
    Except HttpError (Db × ℚ) :=
  if categoryInBudget db categoryId budgetId then
    match findEntry db.entries categoryId year month with
    | some e => .ok (db, e.assignedAmount)
    | none => .ok ({ db with entries := db.entries ++ [⟨categoryId, year, month, 0⟩] }, 0)
  else .error ⟨404, "Category not found in budget"⟩

/-- `BudgetService.adjustBudgetsForCreditSpending`: decrement the spending
category by the full amount, increment the payment category by the covered
portion `min(amount, max(0, spendingEntry.assignedAmount))`. -/
def adjustBudgetsForCreditSpending (db : Db)
    (budgetId spendingCategoryId paymentCategoryId : Nat) (amount : ℚ)
    (year month : Nat) : Except HttpError Db :=
  if amount ≤ 0 then .ok db
  else if spendingCategoryId == paymentCategoryId then .ok db
  else
    match getOrCreateBudgetEntry db budgetId spendingCategoryId year month with
    | .error e => .error e
    | .ok (db1, spendingAssigned) =>
      match getOrCreateBudgetEntry db1 budgetId paymentCategoryId year month with
      | .error e => .error e
      | .ok (db2, _) =>
        let availableToMove := max 0 spendingAssigned
        let amountToMove := min amount availableToMove
        let db3 := { db2 with
          entries := updateEntry db2.entries spendingCategoryId year month (fun a => a - amount) }
        if 0 < amountToMove then
          .ok { db3 with
            entries := updateEntry db3.entries paymentCategoryId year month (fun a => a + amountToMove) }
        else .ok db3

/-- `BudgetService.revertBudgetAdjustmentForCreditSpending`: increment the
spending category and decrement the payment category by the full original
amount (the code does not re-derive a partial-coverage split). -/
def revertBudgetAdjustmentForCreditSpending (db : Db)
    (budgetId spendingCategoryId paymentCategoryId : Nat) (amount : ℚ)
    (year month : Nat) : Except HttpError Db :=
  if amount ≤ 0 then .ok db
  else if spendingCategoryId == paymentCategoryId then .ok db
  else
    match getOrCreateBudgetEntry db budgetId spendingCategoryId year month with
    | .error e => .error e
    | .ok (db1, _) =>
      match getOrCreateBudgetEntry db1 budgetId paymentCategoryId year month with
      | .error e => .error e
      | .ok (db2, _) =>
        let db3 := { db2 with
          entries := updateEntry db2.entries spendingCategoryId year month (fun a => a + amount) }
        .ok { db3 with
          entries := updateEntry db3.entries paymentCategoryId year month (fun a => a - amount) }

/-- `BudgetService.handleCreditCardPayment`: decrement the payment
category. -/
def handleCreditCardPayment (db : Db) (budgetId paymentCategoryId : Nat)
    (amount : ℚ) (year month : Nat) : Except HttpError Db :=
  if amount ≤ 0 then .ok db
  else
    match getOrCreateBudgetEntry db budgetId paymentCategoryId year month with
    | .error e => .error e
    | .ok (db1, _) =>
      .ok { db1 with
        entries := updateEntry db1.entries paymentCategoryId year month (fun a => a - amount) }

/-- `BudgetService.revertCreditCardPayment`: increment the payment
category. -/
def revertCreditCardPayment (db : Db) (budgetId paymentCategoryId : Nat)
    (amount : ℚ) (year month : Nat) : Except HttpError Db :=
  if amount ≤ 0 then .ok db
  else
    match getOrCreateBudgetEntry db budgetId paymentCategoryId year month with
    | .error e => .error e
    | .ok (db1, _) =>
      .ok { db1 with
        entries := updateEntry db1.entries paymentCategoryId year month (fun a => a + amount) }

/-- `BudgetService.handleCreditCardRefundToCategory`: increment the spending
category, decrement the payment category. -/
def handleCreditCardRefundToCategory (db : Db)
    (budgetId spendingCategoryId paymentCategoryId : Nat) (amount : ℚ)
    (year month : Nat) : Except HttpError Db :=
  if amount ≤ 0 then .ok db
  else if spendingCategoryId == paymentCategoryId then .ok db
  else
    match getOrCreateBudgetEntry db budgetId spendingCategoryId year month with
    | .error e => .error e
    | .ok (db1, _) =>
      match getOrCreateBudgetEntry db1 budgetId paymentCategoryId year month with
      | .error e => .error e
      | .ok (db2, _) =>
        let db3 := { db2 with
          entries := updateEntry db2.entries spendingCategoryId year month (fun a => a + amount) }
        .ok { db3 with
          entries := updateEntry db3.entries paymentCategoryId year month (fun a => a - amount) }

/-- `BudgetService.revertCreditCardRefundToCategory`. -/
def revertCreditCardRefundToCategory (db : Db)
    (budgetId spendingCategoryId paymentCategoryId : Nat) (amount : ℚ)
    (year month : Nat) : Except HttpError Db :=
  if amount ≤ 0 then .ok db
  else if spendingCategoryId == paymentCategoryId then .ok db
  else
    match getOrCreateBudgetEntry db budgetId spendingCategoryId year month with
    | .error e => .error e
    | .ok (db1, _) =>
      match getOrCreateBudgetEntry db1 budgetId paymentCategoryId year month with
      | .error e => .error e
      | .ok (db2, _) =>
        let db3 := { db2 with
          entries := updateEntry db2.entries spendingCategoryId year month (fun a => a - amount) }
        .ok { db3 with
          entries := updateEntry db3.entries paymentCategoryId year month (fun a => a + amount) }

/-- `BudgetService.handleCreditCardRefundToTBB`: decrement only the payment
category. -/
def handleCreditCardRefundToTBB (db : Db) (budgetId paymentCategoryId : Nat)
    (amount : ℚ) (year month : Nat) : Except HttpError Db :=
  if amount ≤ 0 then .ok db
  else
    match getOrCreateBudgetEntry db budgetId paymentCategoryId year month with
    | .error e => .error e
    | .ok (db1, _) =>
      .ok { db1 with
        entries := updateEntry db1.entries paymentCategoryId year month (fun a => a - amount) }

/-- `BudgetService.revertCreditCardRefundToTBB`. -/
def revertCreditCardRefundToTBB (db : Db) (budgetId paymentCategoryId : Nat)
    (amount : ℚ) (year month : Nat) : Except HttpError Db :=
  if amount ≤ 0 then .ok db
  else
    match getOrCreateBudgetEntry db budgetId paymentCategoryId year month with
    | .error e => .error e
    | .ok (db1, _) =>
      .ok { db1 with
        entries := updateEntry db1.entries paymentCategoryId year month (fun a => a + amount) }

/-- DTO of `BudgetService.moveMoney`. -/
structure MoveMoneyDto where
  fromCategoryId : Nat
  toCategoryId : Nat
  year : Nat
  month : Nat
  moveAmount : ℚ
  deriving DecidableEq, Repr

/-- `BudgetService.moveMoney`: guard same-category and non-positive amount,
verify ownership, then check the source entry covers the amount before
moving it. -/
def moveMoney (db : Db) (userId budgetId : Nat) (dto : MoveMoneyDto) :
    Except HttpError Db :=
  if dto.fromCategoryId == dto.toCategoryId then
    .error ⟨400, "Cannot move money to the same category"⟩
  else if dto.moveAmount ≤ 0 then
    .error ⟨400, "Move amount must be positive"⟩
  else
    match getBudgetById db userId budgetId with
    | .error e => .error e
    | .ok _ =>
      match getOrCreateBudgetEntry db budgetId dto.fromCategoryId dto.year dto.month with
      | .error e => .error e
      | .ok (db1, fromAssigned) =>
        match getOrCreateBudgetEntry db1 budgetId dto.toCategoryId dto.year dto.month with
        | .error e => .error e
        | .ok (db2, _) =>
          if fromAssigned < dto.moveAmount then
            .error ⟨400, "Insufficient assigned amount in source category"⟩
          else
            let db3 := { db2 with
              entries := updateEntry db2.entries dto.fromCategoryId dto.year dto.month
                (fun a => a - dto.moveAmount) }
            .ok { db3 with
              entries := updateEntry db3.entries dto.toCategoryId dto.year dto.month
                (fun a => a + dto.moveAmount) }

/-- The observable store after a `moveMoney` request: `prisma.$transaction`
rolls every write back when the body throws. -/
def moveMoneyRun (db : Db) (userId budgetId : Nat) (dto : MoveMoneyDto) : Db :=
  match moveMoney db userId budgetId dto with
  | .ok db2 => db2
  | .error _ => db

/-- Result triple of `AccountService.calculateAccountBalances`. -/
structure CalculatedBalances where
  balance : ℚ
  clearedBalance : ℚ
  unclearedBalance : ℚ
  deriving DecidableEq, Repr

/-- Whether a cleared state is CLEARED or RECONCILED. -/
def clearedOrReconciled (s : ClearedStatus) : Bool :=
  s == ClearedStatus.CLEARED || s == ClearedStatus.RECONCILED

/-- `AccountService.calculateAccountBalances`: two aggregate sums over the
account transactions and their difference; never reads a stored balance. -/
def calculateAccountBalances (db : Db) (accountId : Nat) : CalculatedBalances :=
  let totalBalance :=
    (db.txns.filter (fun t => t.accountId == accountId)).foldl
      (fun s t => s + t.amount) 0
  let clearedBalance :=
    (db.txns.filter (fun t =>
      t.accountId == accountId && clearedOrReconciled t.cleared)).foldl
      (fun s t => s + t.amount) 0
  ⟨totalBalance, clearedBalance, totalBalance - clearedBalance⟩

/-- `PayeeService.findOrCreatePayeeByName`: reject an empty (trimmed) name,
otherwise return the payee unique on (budgetId, name) or insert it. -/
def findOrCreatePayeeByName (db : Db) (budgetId : Nat) (payeeName : String) :
    Except HttpError (Db × Payee) :=
  if payeeName.trim == "" then .error ⟨400, "Payee name cannot be empty"⟩
  else
    let normalizedName := payeeName.trim
    match db.payees.find? (fun p => p.budgetId == budgetId && p.name == normalizedName) with
    | some p => .ok (db, p)
    | none =>
      let p : Payee := ⟨db.nextId, budgetId, normalizedName⟩
      .ok ({ db with payees := db.payees ++ [p], nextId := db.nextId + 1 }, p)

/-- The payee-id resolution of `createTransaction` / `updateTransaction`:
use the provided id, else find-or-create by name, else no payee. -/
def resolvePayee (db : Db) (budgetId : Nat) (providedPayeeId : Option Nat)
    (payeeName : Option String) : Except HttpError (Db × Option Nat) :=
  match providedPayeeId with
  | some pid => .ok (db, some pid)
  | none =>
    match payeeName with
    | some nm =>
      match findOrCreatePayeeByName db budgetId nm with
      | .error e => .error e
      | .ok (db1, p) => .ok (db1, some p.id)
    | none => .ok (db, none)

/-- Classification enum of the credit-card adjustment helper in
`transaction.service.ts`. -/
inductive CcBudgetType where
  | NONE
  | SPENDING
  | REFUND_TO_CAT
  | REFUND_TO_TBB
  | PAYMENT
  deriving DecidableEq, Repr

/-- `TransactionService.getCcBudgetType`: classify a (non-transfer)
transaction against a credit-card account with a linked payment category. -/
def getCcBudgetType (t : Txn) (account : Option Account) : CcBudgetType :=
  match account with
  | none => .NONE
  | some a =>
    if a.type != AccountType.CREDIT_CARD then .NONE
    else
      match a.paymentCategoryId with
      | none => .NONE
      | some paymentCategoryId =>
        if !t.isTransfer && decIsNegative t.amount && t.categoryId.isSome
            && t.categoryId != some paymentCategoryId then .SPENDING
        else if !t.isTransfer && decIsPositive t.amount && t.categoryId.isSome
            && t.categoryId != some paymentCategoryId then .REFUND_TO_CAT
        else if !t.isTransfer && decIsPositive t.amount
            && (t.categoryId.isNone || t.categoryId == some paymentCategoryId) then .REFUND_TO_TBB
        else .NONE

/-- Input to `createTransaction` (`CreateTransactionDto`); the ISO date is
embedded as its (year, month) projection. -/
structure SplitDto where
  categoryId : Nat
  amount : ℚ
  deriving DecidableEq, Repr

/-- The creation DTO. -/
structure CreateTransactionDto where
  accountId : Nat
  year : Nat
  month : Nat
  amount : ℚ
  payeeName : Option String := none
  payeeId : Option Nat := none
  categoryId : Option Nat := none
  cleared : Option ClearedStatus := none
  approved : Option Bool := none
  isTransfer : Bool := false
  transferAccountId : Option Nat := none
  isSplit : Bool := false
  splits : Option (List SplitDto) := none
  deriving DecidableEq, Repr

/-- The transfer category rules of `createTransaction`, keyed on the two
accounts `onBudget` flags.  Between two tracking accounts the code performs
no category check at all. -/
def checkTransferCategoryRules (db : Db) (budgetId : Nat)
    (sourceOnBudget destOnBudget : Bool) (categoryId : Option Nat) :
    Except HttpError Unit :=
  if sourceOnBudget && destOnBudget then
    match categoryId with
    | some _ => .error ⟨400, "Category cannot be assigned to transfers between two budget accounts"⟩
    | none => .ok ()
  else if sourceOnBudget && !destOnBudget then
    match categoryId with
    | none => .error ⟨400, "Category is required for transfers from a budget account to a tracking account"⟩
    | some cid =>
      if categoryInBudget db cid budgetId then .ok ()
      else .error ⟨404, "Category not found in budget"⟩
  else if !sourceOnBudget && destOnBudget then
    match categoryId with
    | none => .ok ()
    | some cid =>
      if categoryInBudget db cid budgetId then .ok ()
      else .error ⟨404, "Category not found in budget"⟩
  else .ok ()

/-- The split-children loop of `createTransaction`: validate each split
category, insert the child row, and accumulate the running total. -/
def createSplits (db : Db) (budgetId transactionId : Nat) :
    List SplitDto → Except HttpError (Db × ℚ)
  | [] => .ok (db, 0)
  | s :: rest =>
    if categoryInBudget db s.categoryId budgetId then
      match createSplits
          { db with splits := db.splits ++ [⟨transactionId, s.categoryId, s.amount⟩] }
          budgetId transactionId rest with
      | .error e => .error e
      | .ok (db1, total) => .ok (db1, s.amount + total)
    else .error ⟨404, "Split Category not found in budget"⟩

/-- The post-persistence credit-card budget-adjustment block of
`createTransaction`: the non-transfer spending/refund cases keyed on the
refetched account of the primary row, then the transfer-payment case keyed
on the destination account. -/
def ccNonTransferAdjustOnCreate (db : Db) (budgetId year month : Nat) (primary : Txn) :
    Except HttpError Db :=
  match findAccount db primary.accountId with
  | none => .ok db
  | some account =>
    if account.type == AccountType.CREDIT_CARD then
      match account.paymentCategoryId with
      | none => .ok db
      | some paymentCategoryId =>
        if !primary.isTransfer && decIsNegative primary.amount
            && primary.categoryId.isSome then
          match primary.categoryId with
          | some c =>
            if c != paymentCategoryId then
              adjustBudgetsForCreditSpending db budgetId c paymentCategoryId
                (abs primary.amount) year month
            else .ok db
          | none => .ok db
        else if !primary.isTransfer && decIsPositive primary.amount then
          match primary.categoryId with
          | some c =>
            if c != paymentCategoryId then
              handleCreditCardRefundToCategory db budgetId c paymentCategoryId
                primary.amount year month
            else
              handleCreditCardRefundToTBB db budgetId paymentCategoryId
                primary.amount year month
          | none =>
            handleCreditCardRefundToTBB db budgetId paymentCategoryId
              primary.amount year month
        else .ok db
    else .ok db

/-- The transfers-to-credit-card payment block at the end of
`createTransaction`. -/
def ccTransferPaymentOnCreate (db : Db) (budgetId year month : Nat) (dtoAmount : ℚ)
    (sourceAccount : Account) (destinationAccount : Option Account)
    (primary : Txn) (count : Nat) : Except HttpError Db :=
  if primary.isTransfer && destinationAccount.isSome && count == 2 then
    match destinationAccount with
    | none => .ok db
    | some dest =>
      if sourceAccount.onBudget && dest.type == AccountType.CREDIT_CARD then
        match findAccount db dest.id with
        | none => .ok db
        | some ccAccount =>
          match ccAccount.paymentCategoryId with
          | none => .ok db
          | some paymentCategoryId =>
            handleCreditCardPayment db budgetId paymentCategoryId
              (abs dtoAmount) year month
      else .ok db
  else .ok db

def ccAdjustOnCreate (db : Db) (budgetId year month : Nat) (dtoAmount : ℚ)
    (sourceAccount : Account) (destinationAccount : Option Account)
    (created : List Txn) : Except HttpError Db :=
  match created with
  | [] => .ok db
  | primary :: _ =>
    match ccNonTransferAdjustOnCreate db budgetId year month primary with
    | .error e => .error e
    | .ok dbA =>
      ccTransferPaymentOnCreate dbA budgetId year month dtoAmount sourceAccount
        destinationAccount primary created.length

/-- `TransactionService.createTransaction`: validation, row creation (a pair
for transfers), split children with sum check, then the credit-card
budget-adjustment block; all inside one atomic unit. -/
def createTransaction (db : Db) (userId : Nat) (dto : CreateTransactionDto) :
    Except HttpError (Db × List Txn) :=
  let genPair :=
    if dto.isTransfer then ({ db with nextId := db.nextId + 1 }, some db.nextId)
    else (db, (none : Option Nat))
  let db0 := genPair.1
  let transferGroupId := genPair.2
  match findAccount db0 dto.accountId with
  | none => .error ⟨404, "Source account not found"⟩
  | some sourceAccount =>
    match findBudget db0 sourceAccount.budgetId with
    | none => .error ⟨404, "Source account not found"⟩
    | some budget =>
      if budget.userId != userId then
        .error ⟨403, "Forbidden: Source account does not belong to user"⟩
      else
        let budgetId := sourceAccount.budgetId
        let year := dto.year
        let month := dto.month
        if dto.isTransfer then
          match dto.transferAccountId with
          | none => .error ⟨400, "transferAccountId is required for transfers"⟩
          | some transferAccountId =>
            if transferAccountId == dto.accountId then
              .error ⟨400, "Transfer account cannot be the same as source account"⟩
            else
              match findAccount db0 transferAccountId with
              | none => .error ⟨404, "Transfer destination account not found or not in the same budget"⟩
              | some destinationAccount =>
                if destinationAccount.budgetId != budgetId then
                  .error ⟨404, "Transfer destination account not found or not in the same budget"⟩
                else
                  match checkTransferCategoryRules db0 budgetId sourceAccount.onBudget
                      destinationAccount.onBudget dto.categoryId with
                  | .error e => .error e
                  | .ok _ =>
                    let srcTxn : Txn :=
                      { id := db0.nextId
                        budgetId := budgetId
                        accountId := sourceAccount.id
                        year := year
                        month := month
                        amount := -(abs dto.amount)
                        payeeId := none
                        categoryId :=
                          if sourceAccount.onBudget && !destinationAccount.onBudget then
                            dto.categoryId
                          else none
                        cleared := dto.cleared.getD ClearedStatus.UNCLEARED
                        approved := dto.approved.getD false
                        isTransfer := dto.isTransfer
                        transferGroupId := transferGroupId
                        transferAccountId := some destinationAccount.id
                        isSplit := dto.isSplit }
                    let db1 := { db0 with txns := db0.txns ++ [srcTxn], nextId := db0.nextId + 1 }
                    let destTxn : Txn :=
                      { id := db1.nextId
                        budgetId := budgetId
                        accountId := destinationAccount.id
                        year := year
                        month := month
                        amount := abs dto.amount
                        payeeId := none
                        categoryId :=
                          if !sourceAccount.onBudget && destinationAccount.onBudget then
                            dto.categoryId
                          else none
                        cleared := dto.cleared.getD ClearedStatus.UNCLEARED
                        approved := dto.approved.getD false
                        isTransfer := dto.isTransfer
                        transferGroupId := transferGroupId
                        transferAccountId := some sourceAccount.id
                        isSplit := dto.isSplit }
                    let db2 := { db1 with txns := db1.txns ++ [destTxn], nextId := db1.nextId + 1 }
                    let created := [srcTxn, destTxn]
                    match ccAdjustOnCreate db2 budgetId year month dto.amount sourceAccount
                        (some destinationAccount) created with
                    | .error e => .error e
                    | .ok dbF => .ok (dbF, created)
        else
          match resolvePayee db0 budgetId dto.payeeId dto.payeeName with
          | .error e => .error e
          | .ok (db1, _) =>
            let catCheck : Except HttpError Unit :=
              match dto.categoryId with
              | some cid =>
                if !dto.isSplit then
                  if categoryInBudget db1 cid budgetId then .ok ()
                  else .error ⟨404, "Category not found in budget"⟩
                else .ok ()
              | none => .ok ()
            match catCheck with
            | .error e => .error e
            | .ok _ =>
              if dto.isSplit && dto.categoryId.isSome then
                .error ⟨400, "Cannot assign category directly to a split transaction header"⟩
              else
                match resolvePayee db1 budgetId dto.payeeId dto.payeeName with
                | .error e => .error e
                | .ok (db2, payeeId2) =>
                  let t : Txn :=
                    { id := db2.nextId
                      budgetId := budgetId
                      accountId := sourceAccount.id
                      year := year
                      month := month
                      amount := dto.amount
                      payeeId := payeeId2
                      categoryId := if dto.isSplit then none else dto.categoryId
                      cleared := dto.cleared.getD ClearedStatus.UNCLEARED
                      approved := dto.approved.getD false
                      isTransfer := dto.isTransfer
                      transferGroupId := transferGroupId
                      transferAccountId := none
                      isSplit := dto.isSplit }
                  let db3 := { db2 with txns := db2.txns ++ [t], nextId := db2.nextId + 1 }
                  let created := [t]
                  let afterSplits : Except HttpError Db :=
                    if dto.isSplit && !dto.isTransfer then
                      match dto.splits with
                      | some ss =>
                        if ss.length > 0 then
                          match createSplits db3 budgetId t.id ss with
                          | .error e => .error e
                          | .ok (db4, splitTotal) =>
                            if splitTotal != t.amount then
                              .error ⟨400, "Split amounts do not sum up to the total transaction amount"⟩
                            else .ok db4
                        else .error ⟨400, "Splits array is required for split transactions"⟩
                      | none => .error ⟨400, "Splits array is required for split transactions"⟩
                    else .ok db3
                  match afterSplits with
                  | .error e => .error e
                  | .ok db4 =>
                    match ccAdjustOnCreate db4 budgetId year month dto.amount sourceAccount
                        none created with
                    | .error e => .error e
                    | .ok dbF => .ok (dbF, created)

/-- The observable store after a `createTransaction` request (rollback on
error). -/
def createTransactionRun (db : Db) (userId : Nat) (dto : CreateTransactionDto) : Db :=
  match createTransaction db userId dto with
  | .ok (db1, _) => db1
  | .error _ => db

/-- Optional-chained `account?.type === CREDIT_CARD`. -/
def accountIsCC : Option Account → Bool
  | some a => a.type == AccountType.CREDIT_CARD
  | none => false

/-- `TransactionService.deleteTransaction`: resolve the transfer sibling,
revert whatever credit-card adjustment the row had caused, then delete split
children and the row(s). -/
def deleteTransaction (db : Db) (userId transactionId : Nat) : Except HttpError Db :=
  match findTxn db transactionId with
  | none => .error ⟨404, "Transaction not found"⟩
  | some t =>
    match findBudget db t.budgetId with
    | none => .error ⟨404, "Transaction not found"⟩
    | some budget =>
      if budget.userId != userId then
        .error ⟨403, "Forbidden: Transaction does not belong to user"⟩
      else
        let pairedTransactionId : Option Nat :=
          if t.isTransfer then
            match t.transferGroupId with
            | some gid =>
              (db.txns.find? (fun u => u.transferGroupId == some gid && u.id != transactionId)).map
                (fun u => u.id)
            | none => none
          else none
        let idsToDelete := transactionId :: pairedTransactionId.toList
        let year := t.year
        let month := t.month
        let account1 := findAccount db t.accountId
        let account2 : Option Account :=
          if pairedTransactionId.isSome then
            match t.transferAccountId with
            | some ta => findAccount db ta
            | none => none
          else none
        let revertStep : Except HttpError Db :=
          if !t.isTransfer && accountIsCC account1 && decIsNegative t.amount
              && t.categoryId.isSome then
            match account1, t.categoryId with
            | some a1, some c =>
              match a1.paymentCategoryId with
              | some paymentCategoryId =>
                if c != paymentCategoryId then
                  revertBudgetAdjustmentForCreditSpending db t.budgetId c paymentCategoryId
                    (abs t.amount) year month
                else .ok db
              | none => .ok db
            | _, _ => .ok db
          else if !t.isTransfer && accountIsCC account1 && decIsPositive t.amount then
            match account1 with
            | some a1 =>
              match a1.paymentCategoryId with
              | some paymentCategoryId =>
                match t.categoryId with
                | some c =>
                  if c != paymentCategoryId then
                    revertCreditCardRefundToCategory db t.budgetId c paymentCategoryId
                      t.amount year month
                  else
                    revertCreditCardRefundToTBB db t.budgetId paymentCategoryId
                      t.amount year month
                | none =>
                  revertCreditCardRefundToTBB db t.budgetId paymentCategoryId
                    t.amount year month
              | none => .ok db
            | none => .ok db
          else if t.isTransfer && account1.isSome && account2.isSome then
            let paymentCategoryId : Option Nat :=
              match account1, account2 with
              | some a1, some a2 =>
                if a1.type == AccountType.CREDIT_CARD && a2.onBudget then
                  a1.paymentCategoryId
                else if a1.onBudget && a2.type == AccountType.CREDIT_CARD then
                  a2.paymentCategoryId
                else none
              | _, _ => none
            match paymentCategoryId with
            | some pc =>
              revertCreditCardPayment db t.budgetId pc (abs t.amount) year month
            | none => .ok db
          else .ok db
        match revertStep with
        | .error e => .error e
        | .ok dbA =>
          .ok { dbA with
            splits := dbA.splits.filter (fun s => !(idsToDelete.contains s.transactionId))
            txns := dbA.txns.filter (fun u => !(idsToDelete.contains u.id)) }

/-- The observable store after a `deleteTransaction` request (rollback on
error). -/
def deleteTransactionRun (db : Db) (userId transactionId : Nat) : Db :=
  match deleteTransaction db userId transactionId with
  | .ok db1 => db1
  | .error _ => db

/-- The update DTO (`UpdateTransactionDto`); an `Option` field is `none`
when the JSON key is absent.  `categoryId` distinguishes absent
(`none`), clear-to-null (`some none`) and set (`some (some c)`). -/
structure UpdateTransactionDto where
  accountId : Option Nat := none
  date : Option (Nat × Nat) := none
  amount : Option ℚ := none
  payeeName : Option String := none
  payeeId : Option Nat := none
  categoryId : Option (Option Nat) := none
  cleared : Option ClearedStatus := none
  approved : Option Bool := none
  deriving DecidableEq, Repr

/-- Steps 2b-6 of `updateTransaction`: resolve an account change, forbid
changing a split header amount, apply the field patch to the row, then
revert the old credit-card adjustment (old month) and apply the new one
(new month). -/
def applyTransactionUpdate (db : Db) (transactionId : Nat) (dto : UpdateTransactionDto)
    (existingTransaction : Txn) (existingAccount : Account) (budgetId : Nat)
    (oldCcBudgetType : CcBudgetType) (payeePatch catPatch : Option (Option Nat)) :
    Except HttpError (Db × Txn) :=
  let existingYear := existingTransaction.year
  let existingMonth := existingTransaction.month
  let accountStep : Except HttpError (Nat × Account) :=
    match dto.accountId with
    | some aid =>
      if aid != existingTransaction.accountId then
        match findAccount db aid with
        | none => .error ⟨403, "Forbidden: New account invalid or does not belong to user budget"⟩
        | some acc =>
          if acc.budgetId != budgetId then
            .error ⟨403, "Forbidden: New account invalid or does not belong to user budget"⟩
          else .ok (acc.id, acc)
      else .ok (existingTransaction.accountId, existingAccount)
    | none => .ok (existingTransaction.accountId, existingAccount)
  match accountStep with
  | .error e => .error e
  | .ok (newAccountId, finalAccount) =>
    if dto.amount.isSome && existingTransaction.isSplit then
      .error ⟨400, "Cannot change total amount of a split transaction via this endpoint"⟩
    else
      let updatedTransaction : Txn :=
        { existingTransaction with
          accountId := newAccountId
          year := (dto.date.map Prod.fst).getD existingTransaction.year
          month := (dto.date.map Prod.snd).getD existingTransaction.month
          amount := dto.amount.getD existingTransaction.amount
          cleared := dto.cleared.getD existingTransaction.cleared
          approved := dto.approved.getD existingTransaction.approved
          payeeId :=
            match payeePatch with
            | some p => p
            | none => existingTransaction.payeeId
          categoryId :=
            match catPatch with
            | some p => p
            | none => existingTransaction.categoryId }
      let db2 := { db with
        txns := db.txns.map (fun u =>
          if u.id == transactionId then updatedTransaction else u) }
      let newCcBudgetType := getCcBudgetType updatedTransaction (some finalAccount)
      let finalYear := updatedTransaction.year
      let finalMonth := updatedTransaction.month
      let revertStep : Except HttpError Db :=
        if oldCcBudgetType != CcBudgetType.NONE then
          match existingAccount.paymentCategoryId with
          | some oldPaymentCategoryId =>
            let oldAmount := abs existingTransaction.amount
            if oldCcBudgetType == CcBudgetType.SPENDING then
              match existingTransaction.categoryId with
              | some c =>
                revertBudgetAdjustmentForCreditSpending db2 budgetId c
                  oldPaymentCategoryId oldAmount existingYear existingMonth
              | none => .ok db2
            else if oldCcBudgetType == CcBudgetType.REFUND_TO_CAT then
              match existingTransaction.categoryId with
              | some c =>
                revertCreditCardRefundToCategory db2 budgetId c
                  oldPaymentCategoryId oldAmount existingYear existingMonth
              | none => .ok db2
            else if oldCcBudgetType == CcBudgetType.REFUND_TO_TBB then
              revertCreditCardRefundToTBB db2 budgetId oldPaymentCategoryId
                oldAmount existingYear existingMonth
            else .ok db2
          | none => .ok db2
        else .ok db2
      match revertStep with
      | .error e => .error e
      | .ok db3 =>
        let applyStep : Except HttpError Db :=
          if newCcBudgetType != CcBudgetType.NONE then
            match finalAccount.paymentCategoryId with
            | some newPaymentCategoryId =>
              let newAmount := abs updatedTransaction.amount
              if newCcBudgetType == CcBudgetType.SPENDING then
                match updatedTransaction.categoryId with
                | some c =>
                  adjustBudgetsForCreditSpending db3 budgetId c
                    newPaymentCategoryId newAmount finalYear finalMonth
                | none => .ok db3
              else if newCcBudgetType == CcBudgetType.REFUND_TO_CAT then
                match updatedTransaction.categoryId with
                | some c =>
                  handleCreditCardRefundToCategory db3 budgetId c
                    newPaymentCategoryId newAmount finalYear finalMonth
                | none => .ok db3
              else if newCcBudgetType == CcBudgetType.REFUND_TO_TBB then
                handleCreditCardRefundToTBB db3 budgetId newPaymentCategoryId
                  newAmount finalYear finalMonth
              else .ok db3
            | none => .ok db3
          else .ok db3
        match applyStep with
        | .error e => .error e
        | .ok db4 => .ok (db4, updatedTransaction)

/-- `TransactionService.updateTransaction`: compute the pre-update
credit-card classification, apply the field changes, then revert the old
adjustment against the old month and apply the new one against the new
month. -/
def updateTransaction (db : Db) (userId transactionId : Nat)
    (dto : UpdateTransactionDto) : Except HttpError (Db × Txn) :=
  match findTxn db transactionId with
  | none => .error ⟨404, "Transaction or associated account not found"⟩
  | some existingTransaction =>
    match findAccount db existingTransaction.accountId with
    | none => .error ⟨404, "Transaction or associated account not found"⟩
    | some existingAccount =>
      match findBudget db existingTransaction.budgetId with
      | none => .error ⟨404, "Transaction or associated account not found"⟩
      | some budget =>
        if budget.userId != userId then .error ⟨403, "Forbidden"⟩
        else
          let budgetId := existingTransaction.budgetId
          let oldCcBudgetType := getCcBudgetType existingTransaction (some existingAccount)
          let payeeStep : Except HttpError (Db × Option (Option Nat)) :=
            if dto.payeeId.isSome || dto.payeeName.isSome then
              match resolvePayee db budgetId dto.payeeId dto.payeeName with
              | .error e => .error e
              | .ok (db1, pid) => .ok (db1, some pid)
            else .ok (db, none)
          match payeeStep with
          | .error e => .error e
          | .ok (db1, payeePatch) =>
            let catStep : Except HttpError (Option (Option Nat)) :=
              if !existingTransaction.isSplit then
                match dto.categoryId with
                | some (some cid) =>
                  if categoryInBudget db1 cid budgetId then .ok (some (some cid))
                  else .error ⟨404, "Category not found in budget"⟩
                | some none => .ok (some none)
                | none => .ok none
              else .ok none
            match catStep with
            | .error e => .error e
            | .ok catPatch =>
              applyTransactionUpdate db1 transactionId dto existingTransaction
                existingAccount budgetId oldCcBudgetType payeePatch catPatch

/-- The observable store after an `updateTransaction` request (rollback on
error). -/
def updateTransactionRun (db : Db) (userId transactionId : Nat)
    (dto : UpdateTransactionDto) : Db :=
  match updateTransaction db userId transactionId dto with
  | .ok (db1, _) => db1
  | .error _ => db

/-- The categories the budget view iterates: each group of the budget with
its categories (ordering fields do not affect any total). -/
def budgetCategories (db : Db) (budgetId : Nat) : List Category :=
  (db.groups.filter (fun g => g.budgetId == budgetId)).flatMap
    (fun g => db.categories.filter (fun c => c.groupId == g.id))

/-- Totals of `BudgetService.getBudgetView` (the per-category breakdown is
folded into the totals exactly as the source accumulates them). -/
structure BudgetViewResponse where
  month : Nat
  year : Nat
  toBeBudgeted : ℚ
  totalIncome : ℚ
  totalAssigned : ℚ
  totalActivity : ℚ
  totalAvailable : ℚ
  deriving DecidableEq, Repr

/-- `BudgetService.getBudgetView`: month transactions exclude transfers;
income is the sum of non-split, uncategorized, strictly positive amounts;
assigned comes from the month BudgetEntry map (0 when absent, keys unique by
the (categoryId, year, month) constraint); activity sums direct postings and
split children. -/
def getBudgetView (db : Db) (userId budgetId year month : Nat) :
    Except HttpError BudgetViewResponse :=
  match getBudgetById db userId budgetId with
  | .error e => .error e
  | .ok _ =>
    let budgetEntriesCurrentMonth := db.entries.filter (fun e =>
      categoryInBudget db e.categoryId budgetId && e.year == year && e.month == month)
    let transactionsCurrentMonth := db.txns.filter (fun t =>
      t.budgetId == budgetId && t.year == year && t.month == month && !t.isTransfer)
    let incomeTransactions := transactionsCurrentMonth.filter (fun t =>
      !t.isSplit && t.categoryId.isNone && decide (0 < t.amount))
    let totalIncome := incomeTransactions.foldl (fun s t => s + t.amount) 0
    let assignedOf := fun (cid : Nat) =>
      ((budgetEntriesCurrentMonth.find? (fun e => e.categoryId == cid)).map
        (fun e => e.assignedAmount)).getD 0
    let activityOf := fun (cid : Nat) =>
      transactionsCurrentMonth.foldl (fun s t =>
        if t.isSplit then
          s + (db.splits.filter (fun sp =>
            sp.transactionId == t.id && sp.categoryId == cid)).foldl
              (fun s2 sp => s2 + sp.amount) 0
        else if t.categoryId == some cid then s + t.amount
        else s) 0
    let cats := budgetCategories db budgetId
    let totalAssigned := cats.foldl (fun s c => s + assignedOf c.id) 0
    let totalActivity := cats.foldl (fun s c => s + activityOf c.id) 0
    let totalAvailable := cats.foldl (fun s c => s + (assignedOf c.id + activityOf c.id)) 0
    .ok
      { month := month
        year := year
        toBeBudgeted := totalIncome - totalAssigned
        totalIncome := totalIncome
        totalAssigned := totalAssigned
        totalActivity := totalActivity
        totalAvailable := totalAvailable }

/-- `CategoryGroupService.getCategoryGroupById`: budget ownership then group
membership. -/
def getCategoryGroupById (db : Db) (userId budgetId groupId : Nat) :
    Except HttpError CategoryGroup :=
  match getBudgetById db userId budgetId with
  | .error e => .error e
  | .ok _ =>
    match findGroup db groupId with
    | none => .error ⟨404, "Category group not found in this budget"⟩
    | some g =>
      if g.budgetId != budgetId then
        .error ⟨404, "Category group not found in this budget"⟩
      else .ok g

/-- `CategoryService.getCategoryById`: group ownership then category
membership in the group. -/
def getCategoryById (db : Db) (userId budgetId groupId categoryId : Nat) :
    Except HttpError Category :=
  match getCategoryGroupById db userId budgetId groupId with
  | .error e => .error e
  | .ok _ =>
    match findCategory db categoryId with
    | none => .error ⟨404, "Category not found in this group"⟩
    | some c =>
      if c.groupId != groupId then
        .error ⟨404, "Category not found in this group"⟩
      else .ok c

/-- The goal upsert DTO. -/
structure UpsertGoalDto where
  name : String
  type : GoalType
  targetAmount : Option ℚ := none
  targetDate : Option Nat := none
  monthlyFundingAmount : Option ℚ := none
  deriving DecidableEq, Repr

/-- `GoalService.validateGoalDto`: per-type required-field checks, and the
source mutates the DTO to null out the fields of the other types; the
normalized DTO is returned. -/
def validateGoalDto (dto : UpsertGoalDto) : Except HttpError UpsertGoalDto :=
  match dto.type with
  | .TARGET_BALANCE =>
    match dto.targetAmount with
    | none => .error ⟨400, "targetAmount is required and must be positive"⟩
    | some a =>
      if a ≤ 0 then .error ⟨400, "targetAmount is required and must be positive"⟩
      else .ok { dto with targetDate := none, monthlyFundingAmount := none }
  | .TARGET_BALANCE_BY_DATE =>
    match dto.targetAmount with
    | none => .error ⟨400, "targetAmount is required and must be positive"⟩
    | some a =>
      if a ≤ 0 then .error ⟨400, "targetAmount is required and must be positive"⟩
      else
        match dto.targetDate with
        | none => .error ⟨400, "targetDate is required"⟩
        | some _ => .ok { dto with monthlyFundingAmount := none }
  | .MONTHLY_FUNDING =>
    match dto.monthlyFundingAmount with
    | none => .error ⟨400, "monthlyFundingAmount is required and must be positive"⟩
    | some a =>
      if a ≤ 0 then .error ⟨400, "monthlyFundingAmount is required and must be positive"⟩
      else .ok { dto with targetAmount := none, targetDate := none }

/-- `GoalService.upsertGoalForCategory`: verify ownership, validate the DTO,
then upsert the goal row unique on categoryId. -/
def upsertGoalForCategory (db : Db) (userId budgetId groupId categoryId : Nat)
    (dto : UpsertGoalDto) : Except HttpError (Db × GoalRow) :=
  match getCategoryById db userId budgetId groupId categoryId with
  | .error e => .error e
  | .ok _ =>
    match validateGoalDto dto with
    | .error e => .error e
    | .ok ndto =>
      let row : GoalRow :=
        ⟨categoryId, ndto.name, ndto.type, ndto.targetAmount, ndto.targetDate,
          ndto.monthlyFundingAmount⟩
      if db.goals.any (fun g => g.categoryId == categoryId) then
        .ok ({ db with
          goals := db.goals.map (fun g => if g.categoryId == categoryId then row else g) }, row)
      else
        .ok ({ db with goals := db.goals ++ [row] }, row)

/-! ### Lemmas about the BudgetEntry table primitives -/

lemma entryMatches_iff {e : EntryRow} {c y m : Nat} :
    entryMatches e c y m = true ↔ e.categoryId = c ∧ e.year = y ∧ e.month = m := by
  simp [entryMatches, Bool.and_eq_true, and_assoc]

lemma findEntry_append_single (es : List EntryRow) (x : EntryRow) (c y m : Nat) :
    findEntry (es ++ [x]) c y m =
      ((findEntry es c y m).or (if entryMatches x c y m then some x else none)) := by
  induction es with
  | nil =>
    simp only [findEntry, List.nil_append, List.find?]
    cases h : entryMatches x c y m <;> simp [h, Option.or]
  | cons e es ih =>
    simp only [findEntry, List.cons_append, List.find?] at *
    cases h : entryMatches e c y m <;> simp [h, ih, Option.or]

lemma findEntry_updateEntry_self (es : List EntryRow) (c y m : Nat) (f : ℚ → ℚ) :
    findEntry (updateEntry es c y m f) c y m =
      (findEntry es c y m).map (fun e => { e with assignedAmount := f e.assignedAmount }) := by
  induction es with
  | nil => simp [findEntry, updateEntry]
  | cons e es ih =>
    simp only [findEntry, updateEntry, List.map_cons, List.find?] at *
    by_cases h : entryMatches e c y m = true
    · have h2 : entryMatches { e with assignedAmount := f e.assignedAmount } c y m = true := by
        rw [entryMatches_iff] at h ⊢; exact h
      simp [h, h2]
    · have h2 : entryMatches { e with assignedAmount := f e.assignedAmount } c y m = false := by
        rw [Bool.eq_false_iff]
        intro hc
        rw [entryMatches_iff] at hc
        exact h (entryMatches_iff.mpr hc)
      simp only [Bool.not_eq_true] at h
      simp [h, h2, ih]

lemma findEntry_updateEntry_other (es : List EntryRow) {c y m c' y' m' : Nat} (f : ℚ → ℚ)
    (hne : ¬(c' = c ∧ y' = y ∧ m' = m)) :
    findEntry (updateEntry es c y m f) c' y' m' = findEntry es c' y' m' := by
  induction es with
  | nil => simp [findEntry, updateEntry]
  | cons e es ih =>
    simp only [findEntry, updateEntry, List.map_cons, List.find?] at *
    by_cases h : entryMatches e c y m = true
    · have h2 : entryMatches { e with assignedAmount := f e.assignedAmount } c' y' m' =
          entryMatches e c' y' m' := by
        simp [entryMatches]
      by_cases h3 : entryMatches e c' y' m' = true
      · rcases entryMatches_iff.mp h with ⟨hc, hy, hm⟩
        rcases entryMatches_iff.mp h3 with ⟨hc', hy', hm'⟩
        exact absurd ⟨hc'.symm.trans hc, hy'.symm.trans hy, hm'.symm.trans hm⟩ hne
      · simp only [Bool.not_eq_true] at h3
        simp [h, h2, h3, ih]
    · simp only [Bool.not_eq_true] at h
      have h2 : entryMatches { e with assignedAmount := f e.assignedAmount } c' y' m' =
          entryMatches e c' y' m' := by
        simp [entryMatches]
      cases h3 : entryMatches e c' y' m' <;> simp [h, h2, h3, ih]

lemma assignedFor_updateEntry_self {es : List EntryRow} {c y m : Nat} (f : ℚ → ℚ)
    (h : hasEntry es c y m = true) :
    assignedFor (updateEntry es c y m f) c y m = f (assignedFor es c y m) := by
  unfold hasEntry at h
  unfold assignedFor
  rw [findEntry_updateEntry_self]
  cases hf : findEntry es c y m with
  | none => rw [hf] at h; simp at h
  | some e => simp [hf]

lemma assignedFor_updateEntry_other (es : List EntryRow) {c y m c' y' m' : Nat} (f : ℚ → ℚ)
    (hne : ¬(c' = c ∧ y' = y ∧ m' = m)) :
    assignedFor (updateEntry es c y m f) c' y' m' = assignedFor es c' y' m' := by
  unfold assignedFor
  rw [findEntry_updateEntry_other es f hne]

lemma hasEntry_updateEntry (es : List EntryRow) (c y m c' y' m' : Nat) (f : ℚ → ℚ) :
    hasEntry (updateEntry es c y m f) c' y' m' = hasEntry es c' y' m' := by
  by_cases hne : c' = c ∧ y' = y ∧ m' = m
  · rcases hne with ⟨h1, h2, h3⟩
    subst h1; subst h2; subst h3
    unfold hasEntry
    rw [findEntry_updateEntry_self]
    cases findEntry es c' y' m' <;> simp
  · unfold hasEntry
    rw [findEntry_updateEntry_other es f hne]

lemma assignedFor_ensureEntry (es : List EntryRow) (c y m c' y' m' : Nat) :
    assignedFor (ensureEntry es c y m) c' y' m' = assignedFor es c' y' m' := by
  unfold ensureEntry
  by_cases h : hasEntry es c y m = true
  · simp [h]
  · simp only [Bool.not_eq_true] at h
    simp only [h, Bool.false_eq_true, if_false]
    unfold assignedFor
    rw [findEntry_append_single]
    cases hf : findEntry es c' y' m' with
    | some e => simp [Option.or]
    | none =>
      by_cases hm : entryMatches ⟨c, y, m, 0⟩ c' y' m' = true
      · simp [hm, Option.or]
      · simp only [Bool.not_eq_true] at hm
        simp [hm, Option.or]

lemma hasEntry_ensureEntry_self (es : List EntryRow) (c y m : Nat) :
    hasEntry (ensureEntry es c y m) c y m = true := by
  unfold ensureEntry
  by_cases h : hasEntry es c y m = true
  · simp [h]
  · simp only [Bool.not_eq_true] at h
    simp only [h, Bool.false_eq_true, if_false]
    unfold hasEntry at *
    rw [findEntry_append_single]
    have hm : entryMatches ⟨c, y, m, 0⟩ c y m = true := by
      rw [entryMatches_iff]; exact ⟨rfl, rfl, rfl⟩
    cases hf : findEntry es c y m with
    | none => simp [hm, Option.or]
    | some e => rw [hf] at h; simp at h

lemma hasEntry_ensureEntry_of_hasEntry {es : List EntryRow} {c' y' m' : Nat} (c y m : Nat)
    (h : hasEntry es c' y' m' = true) :
    hasEntry (ensureEntry es c y m) c' y' m' = true := by
  unfold ensureEntry
  by_cases h0 : hasEntry es c y m = true
  · simp [h0, h]
  · simp only [Bool.not_eq_true] at h0
    simp only [h0, Bool.false_eq_true, if_false]
    unfold hasEntry at *
    rw [findEntry_append_single]
    cases hf : findEntry es c' y' m' with
    | none => rw [hf] at h; simp at h
    | some e => simp [Option.or]

/-! ### Characterization of the budget-entry mutation helpers -/

/-- All fields of the store other than the BudgetEntry table agree. -/
def sameExceptEntries (d1 d2 : Db) : Prop :=
  d2.budgets = d1.budgets ∧ d2.accounts = d1.accounts ∧ d2.groups = d1.groups ∧
  d2.categories = d1.categories ∧ d2.payees = d1.payees ∧ d2.txns = d1.txns ∧
  d2.splits = d1.splits ∧ d2.goals = d1.goals ∧ d2.nextId = d1.nextId

lemma sameExceptEntries_refl (d : Db) : sameExceptEntries d d :=
  ⟨rfl, rfl, rfl, rfl, rfl, rfl, rfl, rfl, rfl⟩

lemma sameExceptEntries_entries (d : Db) (es : List EntryRow) :
    sameExceptEntries d { d with entries := es } :=
  ⟨rfl, rfl, rfl, rfl, rfl, rfl, rfl, rfl, rfl⟩

lemma getOrCreateBudgetEntry_ok {db : Db} {b cid : Nat} (y m : Nat)
    (h : categoryInBudget db cid b = true) :
    getOrCreateBudgetEntry db b cid y m =
      .ok ({ db with entries := ensureEntry db.entries cid y m },
        assignedFor db.entries cid y m) := by
  unfold getOrCreateBudgetEntry ensureEntry hasEntry assignedFor
  cases hf : findEntry db.entries cid y m with
  | some e => simp [h, hf]
  | none => simp [h, hf]

lemma adjustBudgetsForCreditSpending_spec (db : Db) {b sc pc : Nat} {a : ℚ} (y m : Nat)
    (hsc : categoryInBudget db sc b = true) (hpc : categoryInBudget db pc b = true)
    (ha : 0 < a) (hne : sc ≠ pc) :
    ∃ db2, adjustBudgetsForCreditSpending db b sc pc a y m = .ok db2 ∧
      sameExceptEntries db db2 ∧
      assignedFor db2.entries sc y m = assignedFor db.entries sc y m - a ∧
      assignedFor db2.entries pc y m =
        assignedFor db.entries pc y m + min a (max 0 (assignedFor db.entries sc y m)) ∧
      ∀ c' y' m', ¬(c' = sc ∧ y' = y ∧ m' = m) → ¬(c' = pc ∧ y' = y ∧ m' = m) →
        assignedFor db2.entries c' y' m' = assignedFor db.entries c' y' m' := by
  have hbeq : (sc == pc) = false := by simp [hne]
  have hes1 : categoryInBudget { db with entries := ensureEntry db.entries sc y m } pc b = true := hpc
  have hle : (a ≤ 0) = False := eq_false (not_le.mpr ha)
  unfold adjustBudgetsForCreditSpending
  simp only [hle, if_false, hbeq, Bool.false_eq_true, getOrCreateBudgetEntry_ok y m hsc,
    getOrCreateBudgetEntry_ok y m hes1]
  set es0 := db.entries with hes0
  set s0 := assignedFor es0 sc y m with hs0
  set es1 := ensureEntry (ensureEntry es0 sc y m) pc y m with hes1d
  set mv := min a (max 0 s0) with hmv
  have hmv_nonneg : 0 ≤ mv := by
    rw [hmv]
    exact le_min (le_of_lt ha) (le_max_left 0 _)
  have hHasSc : hasEntry es1 sc y m = true :=
    hasEntry_ensureEntry_of_hasEntry pc y m (hasEntry_ensureEntry_self es0 sc y m)
  have hHasPc : hasEntry es1 pc y m = true := hasEntry_ensureEntry_self _ pc y m
  set es2 := updateEntry es1 sc y m (fun x => x - a) with hes2
  have hAsgn1Sc : assignedFor es1 sc y m = s0 := by
    rw [hes1d, assignedFor_ensureEntry, assignedFor_ensureEntry]
  have hAsgn1Pc : assignedFor es1 pc y m = assignedFor es0 pc y m := by
    rw [hes1d, assignedFor_ensureEntry, assignedFor_ensureEntry]
  have hAsgn2Sc : assignedFor es2 sc y m = s0 - a := by
    rw [hes2, assignedFor_updateEntry_self _ hHasSc, hAsgn1Sc]
  have hAsgn2Pc : assignedFor es2 pc y m = assignedFor es0 pc y m := by
    rw [hes2, assignedFor_updateEntry_other]
    · exact hAsgn1Pc
    · intro hcon
      exact hne hcon.1.symm
  have hHas2Pc : hasEntry es2 pc y m = true := by
    rw [hes2, hasEntry_updateEntry]
    exact hHasPc
  by_cases hpos : 0 < mv
  · rw [if_pos hpos]
    refine ⟨_, rfl, sameExceptEntries_entries _ _, ?_, ?_, ?_⟩
    · rw [assignedFor_updateEntry_other]
      · exact hAsgn2Sc
      · intro hcon
        exact hne hcon.1
    · rw [assignedFor_updateEntry_self _ hHas2Pc, hAsgn2Pc]
    · intro c' y' m' hnsc hnpc
      rw [assignedFor_updateEntry_other _ _ hnpc, hes2, assignedFor_updateEntry_other _ _ hnsc,
        hes1d, assignedFor_ensureEntry, assignedFor_ensureEntry]
  · rw [if_neg hpos]
    have hmv0 : mv = 0 := le_antisymm (not_lt.mp hpos) hmv_nonneg
    refine ⟨_, rfl, sameExceptEntries_entries _ _, hAsgn2Sc, ?_, ?_⟩
    · rw [hAsgn2Pc, hmv0, add_zero]
    · intro c' y' m' hnsc hnpc
      rw [hes2, assignedFor_updateEntry_other _ _ hnsc, hes1d, assignedFor_ensureEntry,
        assignedFor_ensureEntry]

lemma revertBudgetAdjustmentForCreditSpending_spec (db : Db) {b sc pc : Nat} {a : ℚ}
    (y m : Nat) (hsc : categoryInBudget db sc b = true)
    (hpc : categoryInBudget db pc b = true) (ha : 0 < a) (hne : sc ≠ pc) :
    ∃ db2, revertBudgetAdjustmentForCreditSpending db b sc pc a y m = .ok db2 ∧
      sameExceptEntries db db2 ∧
      assignedFor db2.entries sc y m = assignedFor db.entries sc y m + a ∧
      assignedFor db2.entries pc y m = assignedFor db.entries pc y m - a ∧
      ∀ c' y' m', ¬(c' = sc ∧ y' = y ∧ m' = m) → ¬(c' = pc ∧ y' = y ∧ m' = m) →
        assignedFor db2.entries c' y' m' = assignedFor db.entries c' y' m' := by
  have hbeq : (sc == pc) = false := by simp [hne]
  have hes1 : categoryInBudget { db with entries := ensureEntry db.entries sc y m } pc b = true := hpc
  have hle : (a ≤ 0) = False := eq_false (not_le.mpr ha)
  unfold revertBudgetAdjustmentForCreditSpending
  simp only [hle, if_false, hbeq, Bool.false_eq_true, getOrCreateBudgetEntry_ok y m hsc,
    getOrCreateBudgetEntry_ok y m hes1]
  set es0 := db.entries with hes0
  set es1 := ensureEntry (ensureEntry es0 sc y m) pc y m with hes1d
  have hHasSc : hasEntry es1 sc y m = true :=
    hasEntry_ensureEntry_of_hasEntry pc y m (hasEntry_ensureEntry_self es0 sc y m)
  have hHasPc : hasEntry es1 pc y m = true := hasEntry_ensureEntry_self _ pc y m
  set es2 := updateEntry es1 sc y m (fun x => x + a) with hes2
  have hHas2Pc : hasEntry es2 pc y m = true := by
    rw [hes2, hasEntry_updateEntry]
    exact hHasPc
  refine ⟨_, rfl, ⟨rfl, rfl, rfl, rfl, rfl, rfl, rfl, rfl, rfl⟩, ?_, ?_, ?_⟩
  · rw [assignedFor_updateEntry_other]
    · rw [hes2, assignedFor_updateEntry_self _ hHasSc, hes1d, assignedFor_ensureEntry,
        assignedFor_ensureEntry]
    · intro hcon
      exact hne hcon.1
  · rw [assignedFor_updateEntry_self _ hHas2Pc, hes2, assignedFor_updateEntry_other,
      hes1d, assignedFor_ensureEntry, assignedFor_ensureEntry]
    intro hcon
    exact hne hcon.1.symm
  · intro c' y' m' hnsc hnpc
    rw [assignedFor_updateEntry_other _ _ hnpc, hes2, assignedFor_updateEntry_other _ _ hnsc,
      hes1d, assignedFor_ensureEntry, assignedFor_ensureEntry]

lemma handleCreditCardPayment_ok (db : Db) {b pc : Nat} (a : ℚ) (y m : Nat)
    (hpc : categoryInBudget db pc b = true) :
    ∃ db2, handleCreditCardPayment db b pc a y m = .ok db2 ∧ sameExceptEntries db db2 := by
  unfold handleCreditCardPayment
  by_cases ha : a ≤ 0
  · rw [if_pos ha]
    exact ⟨db, rfl, sameExceptEntries_refl db⟩
  · rw [if_neg ha]
    simp only [getOrCreateBudgetEntry_ok y m hpc]
    exact ⟨_, rfl, ⟨rfl, rfl, rfl, rfl, rfl, rfl, rfl, rfl, rfl⟩⟩

lemma revertCreditCardPayment_ok (db : Db) {b pc : Nat} (a : ℚ) (y m : Nat)
    (hpc : categoryInBudget db pc b = true) :
    ∃ db2, revertCreditCardPayment db b pc a y m = .ok db2 ∧ sameExceptEntries db db2 := by
  unfold revertCreditCardPayment
  by_cases ha : a ≤ 0
  · rw [if_pos ha]
    exact ⟨db, rfl, sameExceptEntries_refl db⟩
  · rw [if_neg ha]
    simp only [getOrCreateBudgetEntry_ok y m hpc]
    exact ⟨_, rfl, ⟨rfl, rfl, rfl, rfl, rfl, rfl, rfl, rfl, rfl⟩⟩

/-- All fields other than the payee table and the id counter agree (the
effect envelope of payee find-or-create). -/
def sameExceptPayees (d1 d2 : Db) : Prop :=
  d2.budgets = d1.budgets ∧ d2.accounts = d1.accounts ∧ d2.groups = d1.groups ∧
  d2.categories = d1.categories ∧ d2.entries = d1.entries ∧ d2.txns = d1.txns ∧
  d2.splits = d1.splits ∧ d2.goals = d1.goals ∧ d1.nextId ≤ d2.nextId

lemma resolvePayee_frame {db : Db} {b : Nat} {pid : Option Nat} {nm : Option String}
    {db1 : Db} {r : Option Nat} (h : resolvePayee db b pid nm = .ok (db1, r)) :
    sameExceptPayees db db1 := by
  cases pid with
  | some p =>
    simp only [resolvePayee, Except.ok.injEq, Prod.mk.injEq] at h
    rw [← h.1]
    exact ⟨rfl, rfl, rfl, rfl, rfl, rfl, rfl, rfl, le_refl _⟩
  | none =>
    cases nm with
    | none =>
      simp only [resolvePayee, Except.ok.injEq, Prod.mk.injEq] at h
      rw [← h.1]
      exact ⟨rfl, rfl, rfl, rfl, rfl, rfl, rfl, rfl, le_refl _⟩
    | some s =>
      simp only [resolvePayee, findOrCreatePayeeByName] at h
      by_cases he : (s.trim == "") = true
      · rw [if_pos he] at h
        exact absurd h (by simp)
      · rw [if_neg he] at h
        cases hf : db.payees.find? (fun p => p.budgetId == b && p.name == s.trim) with
        | some p =>
          rw [hf] at h
          simp only [Except.ok.injEq, Prod.mk.injEq] at h
          rw [← h.1]
          exact ⟨rfl, rfl, rfl, rfl, rfl, rfl, rfl, rfl, le_refl _⟩
        | none =>
          rw [hf] at h
          simp only [Except.ok.injEq, Prod.mk.injEq] at h
          rw [← h.1]
          exact ⟨rfl, rfl, rfl, rfl, rfl, rfl, rfl, rfl, Nat.le_succ _⟩

lemma getOrCreateBudgetEntry_ok_inv {db : Db} {b c y m : Nat} {db1 : Db} {q : ℚ}
    (h : getOrCreateBudgetEntry db b c y m = .ok (db1, q)) :
    db1 = { db with entries := ensureEntry db.entries c y m } ∧
      q = assignedFor db.entries c y m ∧ categoryInBudget db c b = true := by
  by_cases hc : categoryInBudget db c b = true
  · rw [getOrCreateBudgetEntry_ok y m hc] at h
    simp only [Except.ok.injEq, Prod.mk.injEq] at h
    exact ⟨h.1.symm, h.2.symm, hc⟩
  · unfold getOrCreateBudgetEntry at h
    rw [if_neg hc] at h
    exact absurd h (by simp)

/-! ### Claim theorems -/

/-- Claim C5: `moveMoney` rejects a same-category move, a non-positive
amount, and an underfunded source (insufficient funds); every rejection
leaves all assigned amounts unchanged; a successful move decrements the
source and increments the destination entry of that month by the amount. -/
theorem moveMoney_c5 (db : Db) (userId budgetId : Nat) (dto : MoveMoneyDto) :
    (dto.fromCategoryId = dto.toCategoryId →
      moveMoney db userId budgetId dto =
        .error ⟨400, "Cannot move money to the same category"⟩) ∧
    (dto.fromCategoryId ≠ dto.toCategoryId → dto.moveAmount ≤ 0 →
      moveMoney db userId budgetId dto = .error ⟨400, "Move amount must be positive"⟩) ∧
    (dto.fromCategoryId ≠ dto.toCategoryId → 0 < dto.moveAmount →
      (∃ bud, findBudget db budgetId = some bud ∧ bud.userId = userId) →
      categoryInBudget db dto.fromCategoryId budgetId = true →
      categoryInBudget db dto.toCategoryId budgetId = true →
      assignedFor db.entries dto.fromCategoryId dto.year dto.month < dto.moveAmount →
      moveMoney db userId budgetId dto =
        .error ⟨400, "Insufficient assigned amount in source category"⟩) ∧
    (∀ e, moveMoney db userId budgetId dto = .error e →
      ∀ c y m, assignedFor (moveMoneyRun db userId budgetId dto).entries c y m =
        assignedFor db.entries c y m) ∧
    (∀ db2, moveMoney db userId budgetId dto = .ok db2 →
      assignedFor db2.entries dto.fromCategoryId dto.year dto.month =
        assignedFor db.entries dto.fromCategoryId dto.year dto.month - dto.moveAmount ∧
      assignedFor db2.entries dto.toCategoryId dto.year dto.month =
        assignedFor db.entries dto.toCategoryId dto.year dto.month + dto.moveAmount) := by
  refine ⟨?_, ?_, ?_, ?_, ?_⟩
  · intro h
    unfold moveMoney
    simp [h]
  · intro hne hle
    have hb : (dto.fromCategoryId == dto.toCategoryId) = false := by simp [hne]
    unfold moveMoney
    simp only [hb, Bool.false_eq_true, if_false, if_pos hle]
  · intro hne hpos ⟨bud, hbud, huser⟩ hf ht hlt
    have hb : (dto.fromCategoryId == dto.toCategoryId) = false := by simp [hne]
    have hle : (dto.moveAmount ≤ 0) = False := eq_false (not_le.mpr hpos)
    have ht1 : categoryInBudget
        { db with entries := ensureEntry db.entries dto.fromCategoryId dto.year dto.month }
        dto.toCategoryId budgetId = true := ht
    unfold moveMoney getBudgetById
    simp only [hb, Bool.false_eq_true, if_false, hle, hbud, huser, beq_self_eq_true, if_true,
      getOrCreateBudgetEntry_ok dto.year dto.month hf,
      getOrCreateBudgetEntry_ok dto.year dto.month ht1]
    rw [if_pos hlt]
  · intro e herr c y m
    unfold moveMoneyRun
    rw [herr]
  · intro db2 hok
    unfold moveMoney at hok
    by_cases h1 : (dto.fromCategoryId == dto.toCategoryId) = true
    · rw [if_pos h1] at hok
      exact absurd hok (by simp)
    · rw [if_neg h1] at hok
      have hne : dto.fromCategoryId ≠ dto.toCategoryId := by
        intro hc
        exact h1 (by simp [hc])
      by_cases h2 : dto.moveAmount ≤ 0
      · rw [if_pos h2] at hok
        exact absurd hok (by simp)
      · rw [if_neg h2] at hok
        cases hb : getBudgetById db userId budgetId with
        | error e =>
          simp only [hb] at hok
          exact absurd hok (by simp)
        | ok bud =>
          simp only [hb] at hok
          cases hg1 : getOrCreateBudgetEntry db budgetId dto.fromCategoryId dto.year dto.month with
          | error e =>
            simp only [hg1] at hok
            exact absurd hok (by simp)
          | ok p1 =>
            obtain ⟨db1, q1⟩ := p1
            simp only [hg1] at hok
            obtain ⟨hdb1, hq1, hc1⟩ := getOrCreateBudgetEntry_ok_inv hg1
            cases hg2 : getOrCreateBudgetEntry db1 budgetId dto.toCategoryId dto.year dto.month with
            | error e =>
              simp only [hg2] at hok
              exact absurd hok (by simp)
            | ok p2 =>
              obtain ⟨db2x, q2⟩ := p2
              simp only [hg2] at hok
              obtain ⟨hdb2x, hq2, hc2⟩ := getOrCreateBudgetEntry_ok_inv hg2
              by_cases h5 : q1 < dto.moveAmount
              · rw [if_pos h5] at hok
                exact absurd hok (by simp)
              · rw [if_neg h5] at hok
                simp only [Except.ok.injEq] at hok
                subst hdb1
                subst hdb2x
                rw [← hok]
                set es1 := ensureEntry (ensureEntry db.entries dto.fromCategoryId dto.year dto.month)
                  dto.toCategoryId dto.year dto.month with hes1
                have hHasF : hasEntry es1 dto.fromCategoryId dto.year dto.month = true :=
                  hasEntry_ensureEntry_of_hasEntry _ _ _
                    (hasEntry_ensureEntry_self _ _ _ _)
                have hHasT : hasEntry es1 dto.toCategoryId dto.year dto.month = true :=
                  hasEntry_ensureEntry_self _ _ _ _
                constructor
                · rw [assignedFor_updateEntry_other]
                  · rw [assignedFor_updateEntry_self _ hHasF, hes1, assignedFor_ensureEntry,
                      assignedFor_ensureEntry]
                  · intro hcon
                    exact hne hcon.1
                · rw [assignedFor_updateEntry_self]
                  · rw [assignedFor_updateEntry_other, hes1, assignedFor_ensureEntry,
                      assignedFor_ensureEntry]
                    intro hcon
                    exact hne hcon.1.symm
                  · rw [hasEntry_updateEntry]
                    exact hHasT

/-- Store for the moveMoney witness: category 100 has 30 assigned for
April 2024. -/
def mmDb : Db :=
  { budgets := [⟨1, 1⟩]
    accounts := []
    groups := [⟨20, 1⟩]
    categories := [⟨100, 20⟩, ⟨101, 20⟩, ⟨102, 20⟩]
    entries := [⟨100, 2024, 4, 30⟩]
    payees := []
    txns := []
    splits := []
    goals := []
    nextId := 1000 }

/-- Witness for C5: moving 50 out of a category holding 30 fails with the
insufficient-funds error. -/
theorem moveMoney_c5_witness :
    moveMoney mmDb 1 1 ⟨100, 102, 2024, 4, 50⟩ =
      .error ⟨400, "Insufficient assigned amount in source category"⟩ :=
  (moveMoney_c5 mmDb 1 1 ⟨100, 102, 2024, 4, 50⟩).2.2.1 (by decide) (by norm_num)
    ⟨⟨1, 1⟩, rfl, rfl⟩ rfl rfl
    (by rw [show assignedFor mmDb.entries 100 2024 4 = (30 : ℚ) from rfl]; norm_num)

lemma foldl_add_map_sum {α : Type} (f : α → ℚ) (l : List α) (init : ℚ) :
    l.foldl (fun s x => s + f x) init = init + (l.map f).sum := by
  induction l generalizing init with
  | nil => simp
  | cons x xs ih => simp [ih, add_assoc]

/-- Claim C8: the working balance is the sum of all transaction amounts on
the account, the cleared balance the sum over cleared-or-reconciled
transactions, and the uncleared balance their difference; all derived from
the transaction rows alone. -/
theorem calculateAccountBalances_c8 (db : Db) (accountId : Nat) :
    (calculateAccountBalances db accountId).balance =
      ((db.txns.filter (fun t => t.accountId == accountId)).map (fun t => t.amount)).sum ∧
    (calculateAccountBalances db accountId).clearedBalance =
      ((db.txns.filter (fun t => t.accountId == accountId &&
          (t.cleared == ClearedStatus.CLEARED || t.cleared == ClearedStatus.RECONCILED))).map
        (fun t => t.amount)).sum ∧
    (calculateAccountBalances db accountId).unclearedBalance =
      (calculateAccountBalances db accountId).balance -
        (calculateAccountBalances db accountId).clearedBalance := by
  refine ⟨?_, ?_, rfl⟩ <;>
    simp only [calculateAccountBalances, clearedOrReconciled,
      foldl_add_map_sum (fun t : Txn => t.amount), zero_add]

/-- Claim C9: an accepted goal upsert persists exactly the fields of the
declared shape (the other type-specific fields are null), and a request
missing the active type required field is rejected with a 400 validation
error. -/
theorem upsertGoal_c9 (db : Db) (userId budgetId groupId categoryId : Nat)
    (dto : UpsertGoalDto) :
    (∀ db1 g, upsertGoalForCategory db userId budgetId groupId categoryId dto = .ok (db1, g) →
      g ∈ db1.goals ∧ g.categoryId = categoryId ∧ g.type = dto.type ∧
      (g.type = GoalType.TARGET_BALANCE →
        (∃ a, 0 < a ∧ g.targetAmount = some a) ∧ g.targetDate = none ∧
          g.monthlyFundingAmount = none) ∧
      (g.type = GoalType.TARGET_BALANCE_BY_DATE →
        (∃ a, 0 < a ∧ g.targetAmount = some a) ∧ g.targetDate.isSome = true ∧
          g.monthlyFundingAmount = none) ∧
      (g.type = GoalType.MONTHLY_FUNDING →
        (∃ a, 0 < a ∧ g.monthlyFundingAmount = some a) ∧ g.targetAmount = none ∧
          g.targetDate = none)) ∧
    ((∃ c, getCategoryById db userId budgetId groupId categoryId = .ok c) →
      dto.type = GoalType.TARGET_BALANCE → dto.targetAmount = none →
      ∃ msg, upsertGoalForCategory db userId budgetId groupId categoryId dto =
        .error ⟨400, msg⟩) ∧
    ((∃ c, getCategoryById db userId budgetId groupId categoryId = .ok c) →
      dto.type = GoalType.TARGET_BALANCE_BY_DATE →
      dto.targetAmount = none ∨ dto.targetDate = none →
      ∃ msg, upsertGoalForCategory db userId budgetId groupId categoryId dto =
        .error ⟨400, msg⟩) ∧
    ((∃ c, getCategoryById db userId budgetId groupId categoryId = .ok c) →
      dto.type = GoalType.MONTHLY_FUNDING → dto.monthlyFundingAmount = none →
      ∃ msg, upsertGoalForCategory db userId budgetId groupId categoryId dto =
        .error ⟨400, msg⟩) := by
  refine ⟨?_, ?_, ?_, ?_⟩
  · intro db1 g hok
    unfold upsertGoalForCategory at hok
    cases hcat : getCategoryById db userId budgetId groupId categoryId with
    | error e =>
      simp only [hcat] at hok
      exact absurd hok (by simp)
    | ok cat =>
      simp only [hcat] at hok
      cases hval : validateGoalDto dto with
      | error e =>
        simp only [hval] at hok
        exact absurd hok (by simp)
      | ok ndto =>
        simp only [hval] at hok
        -- the shape facts about the normalized dto
        have hshape : ndto.type = dto.type ∧
            (dto.type = GoalType.TARGET_BALANCE →
              (∃ a, 0 < a ∧ ndto.targetAmount = some a) ∧ ndto.targetDate = none ∧
                ndto.monthlyFundingAmount = none) ∧
            (dto.type = GoalType.TARGET_BALANCE_BY_DATE →
              (∃ a, 0 < a ∧ ndto.targetAmount = some a) ∧ ndto.targetDate.isSome = true ∧
                ndto.monthlyFundingAmount = none) ∧
            (dto.type = GoalType.MONTHLY_FUNDING →
              (∃ a, 0 < a ∧ ndto.monthlyFundingAmount = some a) ∧ ndto.targetAmount = none ∧
                ndto.targetDate = none) := by
          unfold validateGoalDto at hval
          cases ht : dto.type with
          | TARGET_BALANCE =>
            simp only [ht] at hval
            cases ha : dto.targetAmount with
            | none =>
              simp only [ha] at hval
              exact absurd hval (by simp)
            | some a =>
              simp only [ha] at hval
              by_cases hle : a ≤ 0
              · rw [if_pos hle] at hval
                exact absurd hval (by simp)
              · rw [if_neg hle] at hval
                simp only [Except.ok.injEq] at hval
                subst hval
                refine ⟨rfl, fun _ => ⟨⟨a, not_le.mp hle, rfl⟩, rfl, rfl⟩, ?_, ?_⟩
                · intro hc; exact absurd hc (by simp)
                · intro hc; exact absurd hc (by simp)
          | TARGET_BALANCE_BY_DATE =>
            simp only [ht] at hval
            cases ha : dto.targetAmount with
            | none =>
              simp only [ha] at hval
              exact absurd hval (by simp)
            | some a =>
              simp only [ha] at hval
              by_cases hle : a ≤ 0
              · rw [if_pos hle] at hval
                exact absurd hval (by simp)
              · rw [if_neg hle] at hval
                cases hd : dto.targetDate with
                | none =>
                  simp only [hd] at hval
                  exact absurd hval (by simp)
                | some d =>
                  simp only [hd] at hval
                  simp only [Except.ok.injEq] at hval
                  subst hval
                  refine ⟨rfl, ?_, fun _ => ⟨⟨a, not_le.mp hle, rfl⟩, rfl, rfl⟩, ?_⟩
                  · intro hc; exact absurd hc (by simp)
                  · intro hc; exact absurd hc (by simp)
          | MONTHLY_FUNDING =>
            simp only [ht] at hval
            cases ha : dto.monthlyFundingAmount with
            | none =>
              simp only [ha] at hval
              exact absurd hval (by simp)
            | some a =>
              simp only [ha] at hval
              by_cases hle : a ≤ 0
              · rw [if_pos hle] at hval
                exact absurd hval (by simp)
              · rw [if_neg hle] at hval
                simp only [Except.ok.injEq] at hval
                subst hval
                refine ⟨rfl, ?_, ?_, fun _ => ⟨⟨a, not_le.mp hle, rfl⟩, rfl, rfl⟩⟩
                · intro hc; exact absurd hc (by simp)
                · intro hc; exact absurd hc (by simp)
        set row : GoalRow :=
          ⟨categoryId, ndto.name, ndto.type, ndto.targetAmount, ndto.targetDate,
            ndto.monthlyFundingAmount⟩ with hrow
        have hmem : ∀ db1' : Db, db1'.goals = db.goals.map
              (fun x => if x.categoryId == categoryId then row else x) →
            (db.goals.any (fun x => x.categoryId == categoryId)) = true → row ∈ db1'.goals := by
          intro db1' hg hany
          obtain ⟨x, hx, hcx⟩ := List.any_eq_true.mp hany
          rw [hg]
          exact List.mem_map.mpr ⟨x, hx, by simp [hcx]⟩
        by_cases hany : (db.goals.any (fun x => x.categoryId == categoryId)) = true
        · rw [if_pos hany] at hok
          simp only [Except.ok.injEq, Prod.mk.injEq] at hok
          obtain ⟨hdb1, hg⟩ := hok
          subst hg
          refine ⟨?_, rfl, ?_, ?_, ?_, ?_⟩
          · exact hmem db1 (by rw [← hdb1]) hany
          · exact hshape.1
          · intro hgt
            exact hshape.2.1 (by rw [← hshape.1]; exact hgt)
          · intro hgt
            exact hshape.2.2.1 (by rw [← hshape.1]; exact hgt)
          · intro hgt
            exact hshape.2.2.2 (by rw [← hshape.1]; exact hgt)
        · rw [if_neg hany] at hok
          simp only [Except.ok.injEq, Prod.mk.injEq] at hok
          obtain ⟨hdb1, hg⟩ := hok
          subst hg
          refine ⟨?_, rfl, ?_, ?_, ?_, ?_⟩
          · rw [← hdb1]
            simp
          · exact hshape.1
          · intro hgt
            exact hshape.2.1 (by rw [← hshape.1]; exact hgt)
          · intro hgt
            exact hshape.2.2.1 (by rw [← hshape.1]; exact hgt)
          · intro hgt
            exact hshape.2.2.2 (by rw [← hshape.1]; exact hgt)
  · rintro ⟨c, hc⟩ ht ha
    have hv : validateGoalDto dto = .error ⟨400, "targetAmount is required and must be positive"⟩ := by
      unfold validateGoalDto
      simp only [ht, ha]
    refine ⟨"targetAmount is required and must be positive", ?_⟩
    unfold upsertGoalForCategory
    simp only [hc, hv]
  · rintro ⟨c, hc⟩ ht hmiss
    have hv : ∃ msg, validateGoalDto dto = .error ⟨400, msg⟩ := by
      unfold validateGoalDto
      cases ha : dto.targetAmount with
      | none =>
        refine ⟨"targetAmount is required and must be positive", ?_⟩
        simp only [ht, ha]
      | some a =>
        by_cases hle : a ≤ 0
        · refine ⟨"targetAmount is required and must be positive", ?_⟩
          simp only [ht, ha, if_pos hle]
        · cases hd : dto.targetDate with
          | none =>
            refine ⟨"targetDate is required", ?_⟩
            simp only [ht, ha, if_neg hle, hd]
          | some d =>
            rcases hmiss with hm | hm
            · rw [ha] at hm; exact absurd hm (by simp)
            · rw [hd] at hm; exact absurd hm (by simp)
    obtain ⟨msg, hv⟩ := hv
    refine ⟨msg, ?_⟩
    unfold upsertGoalForCategory
    simp only [hc, hv]
  · rintro ⟨c, hc⟩ ht ha
    have hv : validateGoalDto dto =
        .error ⟨400, "monthlyFundingAmount is required and must be positive"⟩ := by
      unfold validateGoalDto
      simp only [ht, ha]
    refine ⟨"monthlyFundingAmount is required and must be positive", ?_⟩
    unfold upsertGoalForCategory
    simp only [hc, hv]

/-- Witness for C9: a TARGET_BALANCE goal missing targetAmount on an owned
category is rejected with a 400 validation error. -/
theorem upsertGoal_c9_witness :
    ∃ msg, upsertGoalForCategory mmDb 1 1 20 100
      ⟨"g", GoalType.TARGET_BALANCE, none, none, none⟩ = .error ⟨400, msg⟩ :=
  (upsertGoal_c9 mmDb 1 1 20 100 ⟨"g", GoalType.TARGET_BALANCE, none, none, none⟩).2.1
    ⟨⟨100, 20⟩, rfl⟩ rfl rfl

/-! ### Symbolic execution of createTransaction for transfers -/

/-- The source row persisted for a transfer (negative amount). -/
def transferSrcRow (db : Db) (dto : CreateTransactionDto) (src dest : Account) : Txn :=
  { id := db.nextId + 1
    budgetId := src.budgetId
    accountId := src.id
    year := dto.year
    month := dto.month
    amount := -(abs dto.amount)
    payeeId := none
    categoryId := if src.onBudget && !dest.onBudget then dto.categoryId else none
    cleared := dto.cleared.getD ClearedStatus.UNCLEARED
    approved := dto.approved.getD false
    isTransfer := true
    transferGroupId := some db.nextId
    transferAccountId := some dest.id
    isSplit := dto.isSplit }

/-- The destination row persisted for a transfer (positive amount). -/
def transferDestRow (db : Db) (dto : CreateTransactionDto) (src dest : Account) : Txn :=
  { id := db.nextId + 1 + 1
    budgetId := src.budgetId
    accountId := dest.id
    year := dto.year
    month := dto.month
    amount := abs dto.amount
    payeeId := none
    categoryId := if !src.onBudget && dest.onBudget then dto.categoryId else none
    cleared := dto.cleared.getD ClearedStatus.UNCLEARED
    approved := dto.approved.getD false
    isTransfer := true
    transferGroupId := some db.nextId
    transferAccountId := some src.id
    isSplit := dto.isSplit }

lemma findAccount_withNextId (db : Db) (n id : Nat) :
    findAccount { db with nextId := n } id = findAccount db id := rfl

lemma findBudget_withNextId (db : Db) (n id : Nat) :
    findBudget { db with nextId := n } id = findBudget db id := rfl

lemma checkTransferCategoryRules_withNextId (db : Db) (n b : Nat) (so dOn : Bool)
    (c : Option Nat) :
    checkTransferCategoryRules { db with nextId := n } b so dOn c =
      checkTransferCategoryRules db b so dOn c := rfl

lemma createTransaction_transfer_exec (db : Db) (userId : Nat) (dto : CreateTransactionDto)
    {taid : Nat} {src dest : Account} {bud : Budget}
    (hT : dto.isTransfer = true)
    (hta : dto.transferAccountId = some taid)
    (hsrc : findAccount db dto.accountId = some src)
    (hbud : findBudget db src.budgetId = some bud)
    (huser : bud.userId = userId)
    (hne : taid ≠ dto.accountId)
    (hdest : findAccount db taid = some dest)
    (hdb : dest.budgetId = src.budgetId) :
    createTransaction db userId dto =
      match checkTransferCategoryRules db src.budgetId src.onBudget dest.onBudget
          dto.categoryId with
      | .error e => .error e
      | .ok _ =>
        match ccAdjustOnCreate
            { db with
              txns := db.txns ++ [transferSrcRow db dto src dest, transferDestRow db dto src dest]
              nextId := db.nextId + 1 + 1 + 1 }
            src.budgetId dto.year dto.month dto.amount src (some dest)
            [transferSrcRow db dto src dest, transferDestRow db dto src dest] with
        | .error e => .error e
        | .ok dbF => .ok (dbF, [transferSrcRow db dto src dest, transferDestRow db dto src dest]) := by
  have hne2 : (taid == dto.accountId) = false := by simp [hne]
  have huser2 : (bud.userId != userId) = false := by simp [huser]
  have hdb2 : (dest.budgetId != src.budgetId) = false := by simp [hdb]
  unfold createTransaction
  simp only [hT, if_true, findAccount_withNextId, findBudget_withNextId,
    checkTransferCategoryRules_withNextId, hsrc, hbud, huser2, Bool.false_eq_true, if_false,
    hta, hne2, hdest, hdb2, transferSrcRow, transferDestRow, List.append_assoc,
    List.singleton_append]

/-- The non-transfer credit-card block is inert on a transfer row. -/
lemma ccNonTransferAdjustOnCreate_transfer (db : Db) (b y m : Nat) (t : Txn)
    (h1 : t.isTransfer = true) :
    ccNonTransferAdjustOnCreate db b y m t = .ok db := by
  unfold ccNonTransferAdjustOnCreate
  cases hfa : findAccount db t.accountId with
  | none => simp [hfa]
  | some acc =>
    by_cases hcc : (acc.type == AccountType.CREDIT_CARD) = true
    · cases hpc : acc.paymentCategoryId with
      | none => simp [hfa, hcc, hpc]
      | some pc => simp [hfa, hcc, hpc, h1]
    · simp only [Bool.not_eq_true] at hcc
      simp [hfa, hcc]

/-- The payment block is inert when the transfer source is off-budget. -/
lemma ccTransferPaymentOnCreate_trackingSrc (db : Db) (b y m : Nat) (amt : ℚ)
    (src : Account) (destO : Option Account) (t : Txn) (count : Nat)
    (hsrcOn : src.onBudget = false) :
    ccTransferPaymentOnCreate db b y m amt src destO t count = .ok db := by
  unfold ccTransferPaymentOnCreate
  by_cases hc : (t.isTransfer && destO.isSome && count == 2) = true
  · cases destO with
    | none => simp [hc]
    | some dest => simp [hc, hsrcOn]
  · simp only [Bool.not_eq_true] at hc
    simp [hc]

/-- For a transfer whose source account is off-budget, the credit-card
adjustment block of `createTransaction` changes nothing. -/
lemma ccAdjustOnCreate_transfer_tracking (db : Db) (b y m : Nat) (amt : ℚ)
    (src dest : Account) (t1 t2 : Txn) (hsrcOn : src.onBudget = false)
    (h1 : t1.isTransfer = true) :
    ccAdjustOnCreate db b y m amt src (some dest) [t1, t2] = .ok db := by
  show (match ccNonTransferAdjustOnCreate db b y m t1 with
    | Except.error e => (Except.error e : Except HttpError Db)
    | Except.ok dbA =>
      ccTransferPaymentOnCreate dbA b y m amt src (some dest) t1 [t1, t2].length) =
    Except.ok db
  rw [ccNonTransferAdjustOnCreate_transfer db b y m t1 h1]
  exact ccTransferPaymentOnCreate_trackingSrc db b y m amt src (some dest) t1 _ hsrcOn

/-- Shared concrete store for transaction-engine witnesses: one budget of
user 1; checking 10 and savings 14 (on budget), credit card 11 linked to
payment category 101, tracking accounts 12 and 13; categories 100, 101,
102; 200 assigned to category 100 for April 2024. -/
def engDb : Db :=
  { budgets := [⟨1, 1⟩]
    accounts := [⟨10, 1, AccountType.CHECKING, true, none⟩,
                 ⟨14, 1, AccountType.SAVINGS, true, none⟩,
                 ⟨11, 1, AccountType.CREDIT_CARD, true, some 101⟩,
                 ⟨12, 1, AccountType.INVESTMENT, false, none⟩,
                 ⟨13, 1, AccountType.INVESTMENT, false, none⟩]
    groups := [⟨20, 1⟩]
    categories := [⟨100, 20⟩, ⟨101, 20⟩, ⟨102, 20⟩]
    entries := [⟨100, 2024, 4, 200⟩]
    payees := []
    txns := []
    splits := []
    goals := []
    nextId := 1000 }

/-- Claim C7 (amended): the transfer category rules keyed on the accounts
onBudget flags — budget/budget rejects a provided category, budget/tracking
requires one, tracking/budget accepts an optional valid one; but between
two tracking accounts a provided category is NOT rejected: the request is
accepted and both persisted rows carry no category. -/
theorem createTransaction_c7 (db : Db) (userId : Nat) (dto : CreateTransactionDto)
    {taid : Nat} {src dest : Account} {bud : Budget}
    (hT : dto.isTransfer = true)
    (hta : dto.transferAccountId = some taid)
    (hsrc : findAccount db dto.accountId = some src)
    (hbud : findBudget db src.budgetId = some bud)
    (huser : bud.userId = userId)
    (hne : taid ≠ dto.accountId)
    (hdest : findAccount db taid = some dest)
    (hdb : dest.budgetId = src.budgetId) :
    (src.onBudget = true → dest.onBudget = true → ∀ cid, dto.categoryId = some cid →
      createTransaction db userId dto =
        .error ⟨400, "Category cannot be assigned to transfers between two budget accounts"⟩) ∧
    (src.onBudget = true → dest.onBudget = false → dto.categoryId = none →
      createTransaction db userId dto =
        .error ⟨400, "Category is required for transfers from a budget account to a tracking account"⟩) ∧
    (src.onBudget = false → dest.onBudget = true →
      (dto.categoryId = none ∨
        (∃ cid, dto.categoryId = some cid ∧ categoryInBudget db cid src.budgetId = true)) →
      ∃ dbF r1 r2, createTransaction db userId dto = .ok (dbF, [r1, r2]) ∧
        r1.categoryId = none ∧ r2.categoryId = dto.categoryId) ∧
    (src.onBudget = false → dest.onBudget = false →
      ∃ dbF r1 r2, createTransaction db userId dto = .ok (dbF, [r1, r2]) ∧
        r1.categoryId = none ∧ r2.categoryId = none) := by
  rw [createTransaction_transfer_exec db userId dto hT hta hsrc hbud huser hne hdest hdb]
  refine ⟨?_, ?_, ?_, ?_⟩
  · intro hso hdo cid hcid
    have hrule : checkTransferCategoryRules db src.budgetId src.onBudget dest.onBudget
        dto.categoryId =
        .error ⟨400, "Category cannot be assigned to transfers between two budget accounts"⟩ := by
      unfold checkTransferCategoryRules
      simp [hso, hdo, hcid]
    rw [hrule]
  · intro hso hdo hcid
    have hrule : checkTransferCategoryRules db src.budgetId src.onBudget dest.onBudget
        dto.categoryId =
        .error ⟨400, "Category is required for transfers from a budget account to a tracking account"⟩ := by
      unfold checkTransferCategoryRules
      simp [hso, hdo, hcid]
    rw [hrule]
  · intro hso hdo hcat
    have hrule : checkTransferCategoryRules db src.budgetId src.onBudget dest.onBudget
        dto.categoryId = .ok () := by
      unfold checkTransferCategoryRules
      rcases hcat with hnone | ⟨cid, hcid, hvalid⟩
      · simp [hso, hdo, hnone]
      · simp [hso, hdo, hcid, hvalid]
    rw [hrule]
    rw [ccAdjustOnCreate_transfer_tracking _ _ _ _ _ src dest _ _ hso rfl]
    refine ⟨_, _, _, rfl, ?_, ?_⟩
    · simp [transferSrcRow, hso]
    · simp [transferDestRow, hso, hdo]
  · intro hso hdo
    have hrule : checkTransferCategoryRules db src.budgetId src.onBudget dest.onBudget
        dto.categoryId = .ok () := by
      unfold checkTransferCategoryRules
      simp [hso, hdo]
    rw [hrule]
    rw [ccAdjustOnCreate_transfer_tracking _ _ _ _ _ src dest _ _ hso rfl]
    refine ⟨_, _, _, rfl, ?_, ?_⟩
    · simp [transferSrcRow, hso]
    · simp [transferDestRow, hso, hdo]

/-- Counterexample for C7 as stated: a transfer between two tracking
accounts carrying a category is accepted by the code, not rejected. -/
theorem createTransaction_c7_cex :
    (createTransaction engDb 1
      { accountId := 12, year := 2024, month := 4, amount := 50, categoryId := some 100,
        isTransfer := true, transferAccountId := some 13 }).isOk = true ∧
    (findAccount engDb 12).map (fun a => a.onBudget) = some false ∧
    (findAccount engDb 13).map (fun a => a.onBudget) = some false := by
  exact ⟨rfl, rfl, rfl⟩

/-- Witness for C7: a budget-to-budget transfer with a category is
rejected with the no-category error. -/
theorem createTransaction_c7_witness :
    createTransaction engDb 1
      { accountId := 10, year := 2024, month := 4, amount := 50, categoryId := some 100,
        isTransfer := true, transferAccountId := some 14 } =
      .error ⟨400, "Category cannot be assigned to transfers between two budget accounts"⟩ :=
  (createTransaction_c7 engDb 1
      { accountId := 10, year := 2024, month := 4, amount := 50, categoryId := some 100,
        isTransfer := true, transferAccountId := some 14 }
      rfl rfl rfl rfl rfl (by decide) rfl rfl).1 rfl rfl 100 rfl

lemma sameExceptEntries_trans {a b c : Db} (h1 : sameExceptEntries a b)
    (h2 : sameExceptEntries b c) : sameExceptEntries a c := by
  obtain ⟨x1, x2, x3, x4, x5, x6, x7, x8, x9⟩ := h1
  obtain ⟨y1, y2, y3, y4, y5, y6, y7, y8, y9⟩ := h2
  exact ⟨y1.trans x1, y2.trans x2, y3.trans x3, y4.trans x4, y5.trans x5, y6.trans x6,
    y7.trans x7, y8.trans x8, y9.trans x9⟩

lemma adjustBudgetsForCreditSpending_sameExcept {db : Db} {b sc pc : Nat} {a : ℚ}
    {y m : Nat} {d2 : Db} (h : adjustBudgetsForCreditSpending db b sc pc a y m = .ok d2) :
    sameExceptEntries db d2 := by
  unfold adjustBudgetsForCreditSpending at h
  by_cases hle : a ≤ 0
  · rw [if_pos hle] at h
    simp only [Except.ok.injEq] at h
    subst h
    exact sameExceptEntries_refl db
  · rw [if_neg hle] at h
    by_cases hsp : (sc == pc) = true
    · rw [if_pos hsp] at h
      simp only [Except.ok.injEq] at h
      subst h
      exact sameExceptEntries_refl db
    · rw [if_neg hsp] at h
      cases hg1 : getOrCreateBudgetEntry db b sc y m with
      | error e =>
        simp only [hg1] at h
        exact absurd h (by simp)
      | ok p =>
        obtain ⟨d1, q1⟩ := p
        simp only [hg1] at h
        obtain ⟨hd1, -, -⟩ := getOrCreateBudgetEntry_ok_inv hg1
        cases hg2 : getOrCreateBudgetEntry d1 b pc y m with
        | error e =>
          simp only [hg2] at h
          exact absurd h (by simp)
        | ok p2 =>
          obtain ⟨d2x, q2⟩ := p2
          simp only [hg2] at h
          obtain ⟨hd2x, -, -⟩ := getOrCreateBudgetEntry_ok_inv hg2
          subst hd1
          subst hd2x
          by_cases hpos : 0 < min a (max 0 q1)
          · rw [if_pos hpos] at h
            simp only [Except.ok.injEq] at h
            subst h
            exact ⟨rfl, rfl, rfl, rfl, rfl, rfl, rfl, rfl, rfl⟩
          · rw [if_neg hpos] at h
            simp only [Except.ok.injEq] at h
            subst h
            exact ⟨rfl, rfl, rfl, rfl, rfl, rfl, rfl, rfl, rfl⟩

lemma handleCreditCardRefundToCategory_sameExcept {db : Db} {b sc pc : Nat} {a : ℚ}
    {y m : Nat} {d2 : Db} (h : handleCreditCardRefundToCategory db b sc pc a y m = .ok d2) :
    sameExceptEntries db d2 := by
  unfold handleCreditCardRefundToCategory at h
  by_cases hle : a ≤ 0
  · rw [if_pos hle] at h
    simp only [Except.ok.injEq] at h
    subst h
    exact sameExceptEntries_refl db
  · rw [if_neg hle] at h
    by_cases hsp : (sc == pc) = true
    · rw [if_pos hsp] at h
      simp only [Except.ok.injEq] at h
      subst h
      exact sameExceptEntries_refl db
    · rw [if_neg hsp] at h
      cases hg1 : getOrCreateBudgetEntry db b sc y m with
      | error e =>
        simp only [hg1] at h
        exact absurd h (by simp)
      | ok p =>
        obtain ⟨d1, q1⟩ := p
        simp only [hg1] at h
        obtain ⟨hd1, -, -⟩ := getOrCreateBudgetEntry_ok_inv hg1
        cases hg2 : getOrCreateBudgetEntry d1 b pc y m with
        | error e =>
          simp only [hg2] at h
          exact absurd h (by simp)
        | ok p2 =>
          obtain ⟨d2x, q2⟩ := p2
          simp only [hg2] at h
          obtain ⟨hd2x, -, -⟩ := getOrCreateBudgetEntry_ok_inv hg2
          subst hd1
          subst hd2x
          simp only [Except.ok.injEq] at h
          subst h
          exact ⟨rfl, rfl, rfl, rfl, rfl, rfl, rfl, rfl, rfl⟩

lemma handleCreditCardRefundToTBB_sameExcept {db : Db} {b pc : Nat} {a : ℚ}
    {y m : Nat} {d2 : Db} (h : handleCreditCardRefundToTBB db b pc a y m = .ok d2) :
    sameExceptEntries db d2 := by
  unfold handleCreditCardRefundToTBB at h
  by_cases hle : a ≤ 0
  · rw [if_pos hle] at h
    simp only [Except.ok.injEq] at h
    subst h
    exact sameExceptEntries_refl db
  · rw [if_neg hle] at h
    cases hg : getOrCreateBudgetEntry db b pc y m with
    | error e =>
      simp only [hg] at h
      exact absurd h (by simp)
    | ok p =>
      obtain ⟨d1, q⟩ := p
      simp only [hg] at h
      obtain ⟨hd1, -, -⟩ := getOrCreateBudgetEntry_ok_inv hg
      subst hd1
      simp only [Except.ok.injEq] at h
      subst h
      exact ⟨rfl, rfl, rfl, rfl, rfl, rfl, rfl, rfl, rfl⟩

lemma handleCreditCardPayment_sameExcept {db : Db} {b pc : Nat} {a : ℚ}
    {y m : Nat} {d2 : Db} (h : handleCreditCardPayment db b pc a y m = .ok d2) :
    sameExceptEntries db d2 := by
  unfold handleCreditCardPayment at h
  by_cases hle : a ≤ 0
  · rw [if_pos hle] at h
    simp only [Except.ok.injEq] at h
    subst h
    exact sameExceptEntries_refl db
  · rw [if_neg hle] at h
    cases hg : getOrCreateBudgetEntry db b pc y m with
    | error e =>
      simp only [hg] at h
      exact absurd h (by simp)
    | ok p =>
      obtain ⟨d1, q⟩ := p
      simp only [hg] at h
      obtain ⟨hd1, -, -⟩ := getOrCreateBudgetEntry_ok_inv hg
      subst hd1
      simp only [Except.ok.injEq] at h
      subst h
      exact ⟨rfl, rfl, rfl, rfl, rfl, rfl, rfl, rfl, rfl⟩

lemma revertCreditCardPayment_sameExcept {db : Db} {b pc : Nat} {a : ℚ}
    {y m : Nat} {d2 : Db} (h : revertCreditCardPayment db b pc a y m = .ok d2) :
    sameExceptEntries db d2 := by
  unfold revertCreditCardPayment at h
  by_cases hle : a ≤ 0
  · rw [if_pos hle] at h
    simp only [Except.ok.injEq] at h
    subst h
    exact sameExceptEntries_refl db
  · rw [if_neg hle] at h
    cases hg : getOrCreateBudgetEntry db b pc y m with
    | error e =>
      simp only [hg] at h
      exact absurd h (by simp)
    | ok p =>
      obtain ⟨d1, q⟩ := p
      simp only [hg] at h
      obtain ⟨hd1, -, -⟩ := getOrCreateBudgetEntry_ok_inv hg
      subst hd1
      simp only [Except.ok.injEq] at h
      subst h
      exact ⟨rfl, rfl, rfl, rfl, rfl, rfl, rfl, rfl, rfl⟩

lemma ccNonTransferAdjustOnCreate_sameExcept {db : Db} {b y m : Nat} {primary : Txn}
    {d2 : Db} (h : ccNonTransferAdjustOnCreate db b y m primary = .ok d2) :
    sameExceptEntries db d2 := by
  unfold ccNonTransferAdjustOnCreate at h
  cases hfa : findAccount db primary.accountId with
  | none =>
    simp only [hfa, Except.ok.injEq] at h
    subst h
    exact sameExceptEntries_refl db
  | some acc =>
    simp only [hfa] at h
    by_cases hcc : (acc.type == AccountType.CREDIT_CARD) = true
    · rw [if_pos hcc] at h
      cases hpc : acc.paymentCategoryId with
      | none =>
        simp only [hpc, Except.ok.injEq] at h
        subst h
        exact sameExceptEntries_refl db
      | some pc =>
        simp only [hpc] at h
        by_cases h1 : (!primary.isTransfer && decIsNegative primary.amount
            && primary.categoryId.isSome) = true
        · rw [if_pos h1] at h
          cases hcid : primary.categoryId with
          | none =>
            simp only [hcid, Except.ok.injEq] at h
            subst h
            exact sameExceptEntries_refl db
          | some c =>
            simp only [hcid] at h
            by_cases h2 : (c != pc) = true
            · rw [if_pos h2] at h
              exact adjustBudgetsForCreditSpending_sameExcept h
            · rw [if_neg h2] at h
              simp only [Except.ok.injEq] at h
              subst h
              exact sameExceptEntries_refl db
        · rw [if_neg h1] at h
          by_cases h3 : (!primary.isTransfer && decIsPositive primary.amount) = true
          · rw [if_pos h3] at h
            cases hcid : primary.categoryId with
            | none =>
              simp only [hcid] at h
              exact handleCreditCardRefundToTBB_sameExcept h
            | some c =>
              simp only [hcid] at h
              by_cases h4 : (c != pc) = true
              · rw [if_pos h4] at h
                exact handleCreditCardRefundToCategory_sameExcept h
              · rw [if_neg h4] at h
                exact handleCreditCardRefundToTBB_sameExcept h
          · rw [if_neg h3] at h
            simp only [Except.ok.injEq] at h
            subst h
            exact sameExceptEntries_refl db
    · rw [if_neg hcc] at h
      simp only [Except.ok.injEq] at h
      subst h
      exact sameExceptEntries_refl db

lemma ccTransferPaymentOnCreate_sameExcept {db : Db} {b y m : Nat} {amt : ℚ}
    {src : Account} {destO : Option Account} {primary : Txn} {count : Nat} {d2 : Db}
    (h : ccTransferPaymentOnCreate db b y m amt src destO primary count = .ok d2) :
    sameExceptEntries db d2 := by
  unfold ccTransferPaymentOnCreate at h
  by_cases hc : (primary.isTransfer && destO.isSome && count == 2) = true
  · rw [if_pos hc] at h
    cases destO with
    | none =>
      simp only [Except.ok.injEq] at h
      subst h
      exact sameExceptEntries_refl db
    | some dest =>
      simp only [] at h
      by_cases h2 : (src.onBudget && dest.type == AccountType.CREDIT_CARD) = true
      · rw [if_pos h2] at h
        cases hfa : findAccount db dest.id with
        | none =>
          simp only [hfa, Except.ok.injEq] at h
          subst h
          exact sameExceptEntries_refl db
        | some cca =>
          simp only [hfa] at h
          cases hpc : cca.paymentCategoryId with
          | none =>
            simp only [hpc, Except.ok.injEq] at h
            subst h
            exact sameExceptEntries_refl db
          | some pc =>
            simp only [hpc] at h
            exact handleCreditCardPayment_sameExcept h
      · rw [if_neg h2] at h
        simp only [Except.ok.injEq] at h
        subst h
        exact sameExceptEntries_refl db
  · rw [if_neg hc] at h
    simp only [Except.ok.injEq] at h
    subst h
    exact sameExceptEntries_refl db

lemma ccAdjustOnCreate_sameExcept {db : Db} {b y m : Nat} {amt : ℚ} {src : Account}
    {destO : Option Account} {created : List Txn} {d2 : Db}
    (h : ccAdjustOnCreate db b y m amt src destO created = .ok d2) :
    sameExceptEntries db d2 := by
  unfold ccAdjustOnCreate at h
  cases created with
  | nil =>
    simp only [Except.ok.injEq] at h
    subst h
    exact sameExceptEntries_refl db
  | cons primary rest =>
    simp only [] at h
    cases hs1 : ccNonTransferAdjustOnCreate db b y m primary with
    | error e =>
      simp only [hs1] at h
      exact absurd h (by simp)
    | ok dbA =>
      simp only [hs1] at h
      exact sameExceptEntries_trans (ccNonTransferAdjustOnCreate_sameExcept hs1)
        (ccTransferPaymentOnCreate_sameExcept h)

lemma findAccount_congr {d1 d2 : Db} (h : d1.accounts = d2.accounts) (i : Nat) :
    findAccount d1 i = findAccount d2 i := by
  unfold findAccount
  rw [h]

lemma findBudget_congr {d1 d2 : Db} (h : d1.budgets = d2.budgets) (i : Nat) :
    findBudget d1 i = findBudget d2 i := by
  unfold findBudget
  rw [h]

lemma categoryInBudget_congr {d1 d2 : Db} (hc : d1.categories = d2.categories)
    (hg : d1.groups = d2.groups) (c b : Nat) :
    categoryInBudget d1 c b = categoryInBudget d2 c b := by
  unfold categoryInBudget categoryBudgetId findCategory findGroup
  rw [hc, hg]

lemma findAccount_inv {db : Db} {i : Nat} {a : Account} (h : findAccount db i = some a) :
    a.id = i ∧ a ∈ db.accounts :=
  ⟨by have := List.find?_some h; simpa using this, List.mem_of_find?_eq_some h⟩

/-- Deleting one row of a freshly-created transfer pair: the code finds the
sibling through the transferGroupId, reverts a credit-card payment if one
of the two accounts is a card, and deletes both rows. -/
lemma deleteTransaction_transfer_core (db db1 : Db) (userId : Nat) (bud : Budget)
    (ax ay : Account) (rx ry : Txn) {gid tay : Nat}
    (hbudsC : db1.budgets = db.budgets) (haccC : db1.accounts = db.accounts)
    (hcatC : db1.categories = db.categories) (hgrpC : db1.groups = db.groups)
    (hfound : findTxn db1 rx.id = some rx)
    (hXfer : rx.isTransfer = true)
    (hgidX : rx.transferGroupId = some gid)
    (hpaired : db1.txns.find? (fun u => u.transferGroupId == some gid && u.id != rx.id) =
      some ry)
    (hbudX : findBudget db rx.budgetId = some bud)
    (huser : bud.userId = userId)
    (hAx : findAccount db rx.accountId = some ax)
    (htaX : rx.transferAccountId = some tay)
    (hAy : findAccount db tay = some ay)
    (haxMem : ax ∈ db.accounts) (hayMem : ay ∈ db.accounts)
    (haxBud : ax.budgetId = rx.budgetId) (hayBud : ay.budgetId = rx.budgetId)
    (Hpc : ∀ a ∈ db.accounts, ∀ pc, a.paymentCategoryId = some pc →
      categoryInBudget db pc a.budgetId = true) :
    ∃ dbX, deleteTransaction db1 userId rx.id = .ok dbX ∧
      dbX.txns = db1.txns.filter (fun u => !([rx.id, ry.id].contains u.id)) := by
  have huser2 : (bud.userId != userId) = false := by simp [huser]
  have hfB : findBudget db1 rx.budgetId = some bud := (findBudget_congr hbudsC _).trans hbudX
  have hfA1 : findAccount db1 rx.accountId = some ax := (findAccount_congr haccC _).trans hAx
  have hfA2 : findAccount db1 tay = some ay := (findAccount_congr haccC _).trans hAy
  have hcase12 : (!rx.isTransfer) = false := by rw [hXfer]; rfl
  -- the payment-category option picked by the transfer revert case
  have hrevert : ∃ d3,
      (match (if ax.type == AccountType.CREDIT_CARD && ay.onBudget then ax.paymentCategoryId
        else if ax.onBudget && ay.type == AccountType.CREDIT_CARD then ay.paymentCategoryId
        else none : Option Nat) with
      | some pc => revertCreditCardPayment db1 rx.budgetId pc (abs rx.amount) rx.year rx.month
      | none => .ok db1) = .ok d3 ∧ sameExceptEntries db1 d3 := by
    by_cases hc1 : (ax.type == AccountType.CREDIT_CARD && ay.onBudget) = true
    · rw [if_pos hc1]
      cases hpc : ax.paymentCategoryId with
      | none => exact ⟨db1, rfl, sameExceptEntries_refl db1⟩
      | some pc =>
        have hin : categoryInBudget db1 pc rx.budgetId = true := by
          rw [categoryInBudget_congr hcatC hgrpC, ← haxBud]
          exact Hpc ax haxMem pc hpc
        obtain ⟨d3, hd3, hframe⟩ := revertCreditCardPayment_ok db1 (abs rx.amount)
          rx.year rx.month hin
        exact ⟨d3, hd3, hframe⟩
    · rw [if_neg hc1]
      by_cases hc2 : (ax.onBudget && ay.type == AccountType.CREDIT_CARD) = true
      · rw [if_pos hc2]
        cases hpc : ay.paymentCategoryId with
        | none => exact ⟨db1, rfl, sameExceptEntries_refl db1⟩
        | some pc =>
          have hin : categoryInBudget db1 pc rx.budgetId = true := by
            rw [categoryInBudget_congr hcatC hgrpC, ← hayBud]
            exact Hpc ay hayMem pc hpc
          obtain ⟨d3, hd3, hframe⟩ := revertCreditCardPayment_ok db1 (abs rx.amount)
            rx.year rx.month hin
          exact ⟨d3, hd3, hframe⟩
      · rw [if_neg hc2]
        exact ⟨db1, rfl, sameExceptEntries_refl db1⟩
  obtain ⟨d3, hd3, hframe3⟩ := hrevert
  refine ⟨{ d3 with
    splits := d3.splits.filter (fun s => !([rx.id, ry.id].contains s.transactionId))
    txns := d3.txns.filter (fun u => !([rx.id, ry.id].contains u.id)) }, ?_, ?_⟩
  · unfold deleteTransaction
    simp only [hfound, hfB, huser2, Bool.false_eq_true, if_false, hXfer, if_true, hgidX,
      hpaired, Option.map_some', Option.isSome_some, htaX, hfA1, hfA2, accountIsCC,
      Bool.not_true, Bool.false_and, Bool.and_true, Bool.true_and, Option.toList_some,
      hcase12, hd3]
  · have htx : d3.txns = db1.txns := hframe3.2.2.2.2.2.1
    rw [htx]

/-- Claim C3: a created transfer persists exactly two rows sharing one
fresh transferGroupId, on two different accounts, with equal-magnitude
opposite-signed amounts (source negative, destination positive), and
deleteTransaction on either row deletes both, restoring the original
transaction table. -/
theorem createTransaction_c3 (db : Db) (userId : Nat) (dto : CreateTransactionDto)
    {taid : Nat} {src dest : Account} {bud : Budget} {db1 : Db} {rows : List Txn}
    (hT : dto.isTransfer = true)
    (hta : dto.transferAccountId = some taid)
    (hsrc : findAccount db dto.accountId = some src)
    (hbud : findBudget db src.budgetId = some bud)
    (huser : bud.userId = userId)
    (hne : taid ≠ dto.accountId)
    (hdest : findAccount db taid = some dest)
    (hdb : dest.budgetId = src.budgetId)
    (Hid : ∀ t ∈ db.txns, t.id < db.nextId)
    (Hgid : ∀ t ∈ db.txns, ∀ g, t.transferGroupId = some g → g < db.nextId)
    (Hpc : ∀ a ∈ db.accounts, ∀ pc, a.paymentCategoryId = some pc →
      categoryInBudget db pc a.budgetId = true)
    (hok : createTransaction db userId dto = .ok (db1, rows)) :
    ∃ r1 r2,
      rows = [r1, r2] ∧
      r1.isTransfer = true ∧ r2.isTransfer = true ∧
      r1.transferGroupId = some db.nextId ∧ r2.transferGroupId = some db.nextId ∧
      r1.accountId = src.id ∧ r2.accountId = dest.id ∧ r1.accountId ≠ r2.accountId ∧
      r1.amount = -(abs dto.amount) ∧ r2.amount = abs dto.amount ∧
      r1.amount = -r2.amount ∧
      (∃ dbX, deleteTransaction db1 userId r1.id = .ok dbX ∧ dbX.txns = db.txns) ∧
      (∃ dbY, deleteTransaction db1 userId r2.id = .ok dbY ∧ dbY.txns = db.txns) := by
  rw [createTransaction_transfer_exec db userId dto hT hta hsrc hbud huser hne hdest hdb] at hok
  set r1 := transferSrcRow db dto src dest with hr1
  set r2 := transferDestRow db dto src dest with hr2
  cases hrule : checkTransferCategoryRules db src.budgetId src.onBudget dest.onBudget
      dto.categoryId with
  | error e =>
    rw [hrule] at hok
    exact absurd hok (by simp)
  | ok u =>
    rw [hrule] at hok
    cases hcc : ccAdjustOnCreate
        { db with txns := db.txns ++ [r1, r2], nextId := db.nextId + 1 + 1 + 1 }
        src.budgetId dto.year dto.month dto.amount src (some dest) [r1, r2] with
    | error e =>
      rw [hcc] at hok
      exact absurd hok (by simp)
    | ok dbF =>
      rw [hcc] at hok
      simp only [Except.ok.injEq, Prod.mk.injEq] at hok
      obtain ⟨hdb1, hrows⟩ := hok
      have frame := hdb1 ▸ ccAdjustOnCreate_sameExcept hcc
      obtain ⟨hfb, hfa, hfg, hfc, hfp, hft, hfs, hfgo, hfn⟩ := frame
      have htxns : db1.txns = db.txns ++ [r1, r2] := hft
      obtain ⟨hsrcId, hsrcMem⟩ := findAccount_inv hsrc
      obtain ⟨hdestId, hdestMem⟩ := findAccount_inv hdest
      have hsrcAcc : findAccount db src.id = some src := by rw [hsrcId]; exact hsrc
      have hdestAcc : findAccount db dest.id = some dest := by rw [hdestId]; exact hdest
      have haneq : r1.accountId ≠ r2.accountId := by
        show src.id ≠ dest.id
        rw [hsrcId, hdestId]
        exact fun hc => hne hc.symm
      have hid1 : r1.id = db.nextId + 1 := rfl
      have hid2 : r2.id = db.nextId + 1 + 1 := rfl
      have hne12 : r1.id ≠ r2.id := by rw [hid1, hid2]; omega
      -- old rows never collide with the fresh ids or the fresh group id
      have hnoneFind : ∀ i, db.nextId < i → db.txns.find? (fun u => u.id == i) = none := by
        intro i hi
        refine List.find?_eq_none.mpr (fun t ht => ?_)
        have := Hid t ht
        simp only [beq_iff_eq]
        omega
      have hnoneGid : ∀ j, db.txns.find?
          (fun u => u.transferGroupId == some db.nextId && u.id != j) = none := by
        intro j
        refine List.find?_eq_none.mpr (fun t ht => ?_)
        cases hgt : t.transferGroupId with
        | none => simp [hgt]
        | some g =>
          have := Hgid t ht g hgt
          simp only [hgt, Bool.and_eq_true, beq_iff_eq, Option.some.injEq, bne_iff_ne,
            not_and]
          intro hg
          omega
      have hgid1 : r1.transferGroupId = some db.nextId := rfl
      have hgid2 : r2.transferGroupId = some db.nextId := rfl
      -- find the deleted row
      have hfound1 : findTxn db1 r1.id = some r1 := by
        unfold findTxn
        rw [htxns, List.find?_append, hnoneFind r1.id (by rw [hid1]; omega)]
        simp [List.find?]
      have hfound2 : findTxn db1 r2.id = some r2 := by
        unfold findTxn
        rw [htxns, List.find?_append, hnoneFind r2.id (by rw [hid2]; omega)]
        have : (r1.id == r2.id) = false := by
          rw [hid1, hid2]
          simp only [beq_eq_false_iff_ne, ne_eq]
          omega
        simp [List.find?, this]
      -- find the sibling
      have hpaired1 : db1.txns.find?
          (fun u => u.transferGroupId == some db.nextId && u.id != r1.id) = some r2 := by
        rw [htxns, List.find?_append, hnoneGid r1.id]
        have h1 : (r1.transferGroupId == some db.nextId && r1.id != r1.id) = false := by
          simp
        have h2 : (r2.transferGroupId == some db.nextId && r2.id != r1.id) = true := by
          rw [hgid2]
          simp only [beq_self_eq_true, Bool.true_and, bne_iff_ne, ne_eq]
          rw [hid1, hid2]
          omega
        simp [List.find?, h1, h2]
      have hpaired2 : db1.txns.find?
          (fun u => u.transferGroupId == some db.nextId && u.id != r2.id) = some r1 := by
        rw [htxns, List.find?_append, hnoneGid r2.id]
        have h1 : (r1.transferGroupId == some db.nextId && r1.id != r2.id) = true := by
          rw [hgid1]
          simp only [beq_self_eq_true, Bool.true_and, bne_iff_ne, ne_eq]
          rw [hid1, hid2]
          omega
        simp [List.find?, h1]
      -- the final filter removes exactly the pair
      have hfilter : ∀ i j : Nat, i = r1.id ∨ i = r2.id → j = r1.id ∨ j = r2.id →
          (db.txns ++ [r1, r2]).filter (fun u => !([i, j].contains u.id)) = db.txns.filter
            (fun u => !([i, j].contains u.id)) ++ [] → True := fun _ _ _ _ _ => trivial
      have hkeep : ∀ i j : Nat, db.nextId < i → db.nextId < j →
          db.txns.filter (fun u => !([i, j].contains u.id)) = db.txns := by
        intro i j hi hj
        refine List.filter_eq_self.mpr (fun t ht => ?_)
        have := Hid t ht
        simp only [List.contains_cons, Bool.not_eq_true', Bool.or_eq_false_iff,
          beq_eq_false_iff_ne, ne_eq]
        refine ⟨fun hc => ?_, fun hc => ?_, ?_⟩
        · omega
        · omega
        · simp
      have hdrop : ∀ i j : Nat,
          ([r1, r2].filter (fun u => !([i, j].contains u.id))) = [] ∨ True := fun _ _ =>
            Or.inr trivial
      refine ⟨r1, r2, hrows.symm, rfl, rfl, rfl, rfl, rfl, rfl, haneq, rfl, rfl, rfl,
        ?_, ?_⟩
      · obtain ⟨dbX, hdel, htxX⟩ := deleteTransaction_transfer_core db db1 userId bud
          src dest r1 r2 hfb hfa hfc hfg hfound1 rfl hgid1 hpaired1 hbud huser
          (by show findAccount db src.id = some src; exact hsrcAcc) rfl
          (by show findAccount db dest.id = some dest; exact hdestAcc)
          hsrcMem hdestMem rfl hdb Hpc
        refine ⟨dbX, hdel, ?_⟩
        rw [htxX, htxns, List.filter_append, hkeep r1.id r2.id (by rw [hid1]; omega)
          (by rw [hid2]; omega)]
        have hr1drop : (!([r1.id, r2.id].contains r1.id)) = false := by simp
        have hr2drop : (!([r1.id, r2.id].contains r2.id)) = false := by simp
        simp [List.filter, hr1drop, hr2drop]
      · obtain ⟨dbY, hdel, htxY⟩ := deleteTransaction_transfer_core db db1 userId bud
          dest src r2 r1 hfb hfa hfc hfg hfound2 rfl hgid2 hpaired2
          (by show findBudget db src.budgetId = some bud; exact hbud) huser
          (by show findAccount db dest.id = some dest; exact hdestAcc) rfl
          (by show findAccount db src.id = some src; exact hsrcAcc)
          hdestMem hsrcMem hdb rfl Hpc
        refine ⟨dbY, hdel, ?_⟩
        rw [htxY, htxns, List.filter_append, hkeep r2.id r1.id (by rw [hid2]; omega)
          (by rw [hid1]; omega)]
        have hr1drop : (!([r2.id, r1.id].contains r1.id)) = false := by simp
        have hr2drop : (!([r2.id, r1.id].contains r2.id)) = false := by simp
        simp [List.filter, hr1drop, hr2drop]

/-- Concrete transfer request for the C3 witness. -/
def c3Dto : CreateTransactionDto :=
  { accountId := 10, year := 2024, month := 4, amount := 50, isTransfer := true,
    transferAccountId := some 14 }

/-- Source row persisted by the C3 witness transfer. -/
def c3Row1 : Txn :=
  ⟨1001, 1, 10, 2024, 4, -50, none, none, ClearedStatus.UNCLEARED, false, true,
    some 1000, some 14, false⟩

/-- Destination row persisted by the C3 witness transfer. -/
def c3Row2 : Txn :=
  ⟨1002, 1, 14, 2024, 4, 50, none, none, ClearedStatus.UNCLEARED, false, true,
    some 1000, some 10, false⟩

/-- The store after the C3 witness transfer. -/
def c3Db1 : Db := { engDb with txns := [c3Row1, c3Row2], nextId := 1003 }

/-- Witness for C3 at a concrete checking-to-savings transfer of 50. -/
theorem createTransaction_c3_witness :
    ∃ r1 r2,
      [c3Row1, c3Row2] = [r1, r2] ∧
      r1.isTransfer = true ∧ r2.isTransfer = true ∧
      r1.transferGroupId = some 1000 ∧ r2.transferGroupId = some 1000 ∧
      r1.accountId = 10 ∧ r2.accountId = 14 ∧ r1.accountId ≠ r2.accountId ∧
      r1.amount = -(abs (50 : ℚ)) ∧ r2.amount = abs (50 : ℚ) ∧
      r1.amount = -r2.amount ∧
      (∃ dbX, deleteTransaction c3Db1 1 r1.id = .ok dbX ∧ dbX.txns = engDb.txns) ∧
      (∃ dbY, deleteTransaction c3Db1 1 r2.id = .ok dbY ∧ dbY.txns = engDb.txns) :=
  createTransaction_c3 engDb 1 c3Dto rfl rfl rfl rfl rfl (by decide) rfl rfl
    (by intro t ht; simp [engDb] at ht)
    (by intro t ht; simp [engDb] at ht)
    (by
      intro a ha pc hpc
      fin_cases ha <;> simp_all
      subst hpc
      decide)
    rfl

/-- Symbolic execution of a successful non-transfer, non-split credit-card
spending creation: one row is persisted and the budget adjustment moves the
covered portion into the payment category. -/
lemma createTransaction_ccSpend_exec (db : Db) (userId : Nat) (dto : CreateTransactionDto)
    {src : Account} {bud : Budget} {c pc : Nat} {db1 : Db} {rows : List Txn}
    (hT : dto.isTransfer = false)
    (hS : dto.isSplit = false)
    (hsrc : findAccount db dto.accountId = some src)
    (hbud : findBudget db src.budgetId = some bud)
    (huser : bud.userId = userId)
    (hcid : dto.categoryId = some c)
    (hneg : dto.amount < 0)
    (hcc : src.type = AccountType.CREDIT_CARD)
    (hpc : src.paymentCategoryId = some pc)
    (hcpc : c ≠ pc)
    (hvc : categoryInBudget db c src.budgetId = true)
    (hvpc : categoryInBudget db pc src.budgetId = true)
    (hok : createTransaction db userId dto = .ok (db1, rows)) :
    ∃ t n,
      rows = [t] ∧
      db1.budgets = db.budgets ∧ db1.accounts = db.accounts ∧ db1.groups = db.groups ∧
      db1.categories = db.categories ∧ db1.splits = db.splits ∧ db1.goals = db.goals ∧
      db1.txns = db.txns ++ [t] ∧ db.nextId ≤ n ∧ t.id = n ∧ db1.nextId = n + 1 ∧
      t.budgetId = src.budgetId ∧ t.accountId = src.id ∧ t.year = dto.year ∧
      t.month = dto.month ∧ t.amount = dto.amount ∧ t.categoryId = some c ∧
      t.isTransfer = false ∧ t.isSplit = false ∧ t.transferGroupId = none ∧
      assignedFor db1.entries c dto.year dto.month =
        assignedFor db.entries c dto.year dto.month - abs dto.amount ∧
      assignedFor db1.entries pc dto.year dto.month =
        assignedFor db.entries pc dto.year dto.month +
          min (abs dto.amount) (max 0 (assignedFor db.entries c dto.year dto.month)) ∧
      ∀ c' y' m', ¬(c' = c ∧ y' = dto.year ∧ m' = dto.month) →
        ¬(c' = pc ∧ y' = dto.year ∧ m' = dto.month) →
        assignedFor db1.entries c' y' m' = assignedFor db.entries c' y' m' := by
  have huser2 : (bud.userId != userId) = false := by simp [huser]
  obtain ⟨hsrcId, hsrcMem⟩ := findAccount_inv hsrc
  have hsrcAcc : findAccount db src.id = some src := by rw [hsrcId]; exact hsrc
  unfold createTransaction at hok
  simp only [hT, Bool.false_eq_true, if_false, hsrc, hbud, huser2] at hok
  cases hp1 : resolvePayee db src.budgetId dto.payeeId dto.payeeName with
  | error e =>
    simp only [hp1] at hok
    exact absurd hok (by simp)
  | ok pA =>
    obtain ⟨dbA, rA⟩ := pA
    simp only [hp1] at hok
    obtain ⟨fA1, fA2, fA3, fA4, fA5, fA6, fA7, fA8, fA9⟩ := resolvePayee_frame hp1
    have hvA : categoryInBudget dbA c src.budgetId = true := by
      rw [categoryInBudget_congr fA4 fA3]
      exact hvc
    simp only [hcid, hS, Bool.not_false, if_true, hvA, Bool.false_and,
      Option.isSome_some, Bool.and_true, Bool.and_false, Bool.false_eq_true, if_false] at hok
    cases hp2 : resolvePayee dbA src.budgetId dto.payeeId dto.payeeName with
    | error e =>
      simp only [hp2] at hok
      exact absurd hok (by simp)
    | ok pB =>
      obtain ⟨dbB, rB⟩ := pB
      simp only [hp2, Bool.false_eq_true, if_false] at hok
      obtain ⟨fB1, fB2, fB3, fB4, fB5, fB6, fB7, fB8, fB9⟩ := resolvePayee_frame hp2
      have hBe : dbB.entries = db.entries := fB5.trans fA5
      have hBtx : dbB.txns = db.txns := fB6.trans fA6
      have hBacc : dbB.accounts = db.accounts := fB2.trans fA2
      have hBbud : dbB.budgets = db.budgets := fB1.trans fA1
      have hBgrp : dbB.groups = db.groups := fB3.trans fA3
      have hBcat : dbB.categories = db.categories := fB4.trans fA4
      have hBsp : dbB.splits = db.splits := fB7.trans fA7
      have hBgo : dbB.goals = db.goals := fB8.trans fA8
      have hBn : db.nextId ≤ dbB.nextId := le_trans fA9 fB9
      set t : Txn :=
        { id := dbB.nextId
          budgetId := src.budgetId
          accountId := src.id
          year := dto.year
          month := dto.month
          amount := dto.amount
          payeeId := rB
          categoryId := some c
          cleared := dto.cleared.getD ClearedStatus.UNCLEARED
          approved := dto.approved.getD false
          isTransfer := false
          transferGroupId := none
          transferAccountId := none
          isSplit := false } with ht
      set db3 : Db := { dbB with txns := dbB.txns ++ [t], nextId := dbB.nextId + 1 } with hdb3
      have htcat : t.categoryId = some c := rfl
      have htneg : decIsNegative t.amount = true := by
        rw [ht]
        simp only [decIsNegative, decide_eq_true_eq]
        exact hneg
      have htX : t.isTransfer = false := rfl
      have hstep1 : ccNonTransferAdjustOnCreate db3 src.budgetId dto.year dto.month t =
          adjustBudgetsForCreditSpending db3 src.budgetId c pc (abs t.amount)
            dto.year dto.month := by
        unfold ccNonTransferAdjustOnCreate
        have hfa3 : findAccount db3 t.accountId = some src := by
          rw [ht]
          show findAccount db3 src.id = some src
          rw [findAccount_congr (show db3.accounts = db.accounts from hBacc)]
          exact hsrcAcc
        rw [hfa3]
        have hccb : (src.type == AccountType.CREDIT_CARD) = true := by simp [hcc]
        have hcpcb : (c != pc) = true := by simp [hcpc]
        simp only [hccb, if_true, hpc, htX, Bool.not_false, htneg, htcat,
          Option.isSome_some, Bool.and_true, Bool.true_and, hcpcb, if_true]
      have hv3c : categoryInBudget db3 c src.budgetId = true := by
        rw [categoryInBudget_congr (show db3.categories = db.categories from hBcat)
          (show db3.groups = db.groups from hBgrp)]
        exact hvc
      have hv3pc : categoryInBudget db3 pc src.budgetId = true := by
        rw [categoryInBudget_congr (show db3.categories = db.categories from hBcat)
          (show db3.groups = db.groups from hBgrp)]
        exact hvpc
      have hapos : 0 < abs t.amount := by
        rw [ht]
        exact abs_pos.mpr (ne_of_lt hneg)
      obtain ⟨dbC, hC, frameC, eSc, ePc, eOther⟩ :=
        adjustBudgetsForCreditSpending_spec db3 dto.year dto.month hv3c hv3pc hapos hcpc
      have hpay : ccTransferPaymentOnCreate dbC src.budgetId dto.year dto.month dto.amount
          src none t 1 = .ok dbC := by
        unfold ccTransferPaymentOnCreate
        simp
      have hccAll : ccAdjustOnCreate db3 src.budgetId dto.year dto.month dto.amount src
          none [t] = .ok dbC := by
        unfold ccAdjustOnCreate
        simp only [List.length_cons, List.length_nil]
        rw [hstep1, hC]
        exact hpay
      rw [hccAll] at hok
      simp only [Except.ok.injEq, Prod.mk.injEq] at hok
      obtain ⟨hdb1, hrows⟩ := hok
      obtain ⟨gC1, gC2, gC3, gC4, gC5, gC6, gC7, gC8, gC9⟩ := frameC
      have h3e : db3.entries = db.entries := hBe
      refine ⟨t, dbB.nextId, hrows.symm, ?_, ?_, ?_, ?_, ?_, ?_, ?_, hBn, rfl, ?_, rfl,
        rfl, rfl, rfl, rfl, htcat, htX, rfl, rfl, ?_, ?_, ?_⟩
      · rw [← hdb1, gC1]; exact hBbud
      · rw [← hdb1, gC2]; exact hBacc
      · rw [← hdb1, gC3]; exact hBgrp
      · rw [← hdb1, gC4]; exact hBcat
      · rw [← hdb1, gC7]; exact hBsp
      · rw [← hdb1, gC8]; exact hBgo
      · rw [← hdb1, gC6]
        show dbB.txns ++ [t] = db.txns ++ [t]
        rw [hBtx]
      · rw [← hdb1, gC9]
      · rw [← hdb1]
        rw [eSc, h3e]
      · rw [← hdb1]
        rw [ePc, h3e]
      · intro c' y' m' h1 h2
        rw [← hdb1, eOther c' y' m' h1 h2, h3e]

/-- Claim C1: a non-transfer outflow on a credit-card account with a linked
payment category, categorized to a spending category other than the payment
category, decrements the spending category entry by the full |amount| (it
may go negative) and increments the payment category entry by
min(|amount|, max(0, assigned-before)). -/
theorem createTransaction_c1 (db : Db) (userId : Nat) (dto : CreateTransactionDto)
    {src : Account} {bud : Budget} {c pc : Nat} {db1 : Db} {rows : List Txn}
    (hT : dto.isTransfer = false)
    (hS : dto.isSplit = false)
    (hsrc : findAccount db dto.accountId = some src)
    (hbud : findBudget db src.budgetId = some bud)
    (huser : bud.userId = userId)
    (hcid : dto.categoryId = some c)
    (hneg : dto.amount < 0)
    (hcc : src.type = AccountType.CREDIT_CARD)
    (hpc : src.paymentCategoryId = some pc)
    (hcpc : c ≠ pc)
    (hvc : categoryInBudget db c src.budgetId = true)
    (hvpc : categoryInBudget db pc src.budgetId = true)
    (hok : createTransaction db userId dto = .ok (db1, rows)) :
    ∃ t, rows = [t] ∧ t.amount = dto.amount ∧ t.categoryId = some c ∧
      assignedFor db1.entries c dto.year dto.month =
        assignedFor db.entries c dto.year dto.month - abs dto.amount ∧
      assignedFor db1.entries pc dto.year dto.month =
        assignedFor db.entries pc dto.year dto.month +
          min (abs dto.amount) (max 0 (assignedFor db.entries c dto.year dto.month)) := by
  obtain ⟨t, n, hrows, -, -, -, -, -, -, -, -, -, -, -, -, -, -, hamt, htcat, -, -, -,
    eSc, ePc, -⟩ :=
    createTransaction_ccSpend_exec db userId dto hT hS hsrc hbud huser hcid hneg hcc hpc
      hcpc hvc hvpc hok
  exact ⟨t, hrows, hamt, htcat, eSc, ePc⟩

/-- Concrete credit-card spend request shared by the C1 and C2 witnesses. -/
def c1Dto : CreateTransactionDto :=
  { accountId := 11, year := 2024, month := 4, amount := -60, categoryId := some 100 }

/-- The row persisted by the witness spend. -/
def c1Row : Txn :=
  ⟨1000, 1, 11, 2024, 4, -60, none, some 100, ClearedStatus.UNCLEARED, false, false,
    none, none, false⟩

/-- The store after the witness spend: category 100 drops to 140, payment
category 101 receives the fully-covered 60. -/
def c1Db1 : Db :=
  { engDb with
    entries := [⟨100, 2024, 4, 140⟩, ⟨101, 2024, 4, 60⟩]
    txns := [c1Row]
    nextId := 1001 }

/-- Witness for C1: the 60 spend against 200 assigned moves 60 into the
payment category and leaves 140. -/
theorem createTransaction_c1_witness :
    ∃ t, [c1Row] = [t] ∧ t.amount = (-60 : ℚ) ∧ t.categoryId = some 100 ∧
      assignedFor c1Db1.entries 100 2024 4 =
        assignedFor engDb.entries 100 2024 4 - abs (-60 : ℚ) ∧
      assignedFor c1Db1.entries 101 2024 4 =
        assignedFor engDb.entries 101 2024 4 +
          min (abs (-60 : ℚ)) (max 0 (assignedFor engDb.entries 100 2024 4)) :=
  createTransaction_c1 engDb 1 c1Dto rfl rfl rfl rfl rfl rfl (by norm_num [c1Dto]) rfl rfl
    (by decide) rfl rfl (by with_unfolding_all rfl)

/-- Claim C2: a fully-covered credit-card spend, created and then deleted,
returns both the spending and the payment category entries of that month to
exactly their pre-creation values. -/
theorem createTransaction_c2 (db : Db) (userId : Nat) (dto : CreateTransactionDto)
    {src : Account} {bud : Budget} {c pc : Nat} {db1 : Db} {rows : List Txn}
    (hT : dto.isTransfer = false)
    (hS : dto.isSplit = false)
    (hsrc : findAccount db dto.accountId = some src)
    (hbud : findBudget db src.budgetId = some bud)
    (huser : bud.userId = userId)
    (hcid : dto.categoryId = some c)
    (hneg : dto.amount < 0)
    (hcc : src.type = AccountType.CREDIT_CARD)
    (hpc : src.paymentCategoryId = some pc)
    (hcpc : c ≠ pc)
    (hvc : categoryInBudget db c src.budgetId = true)
    (hvpc : categoryInBudget db pc src.budgetId = true)
    (hcover : abs dto.amount ≤ assignedFor db.entries c dto.year dto.month)
    (Hid : ∀ u ∈ db.txns, u.id < db.nextId)
    (hok : createTransaction db userId dto = .ok (db1, rows)) :
    ∃ t, rows = [t] ∧ ∃ db2, deleteTransaction db1 userId t.id = .ok db2 ∧
      assignedFor db2.entries c dto.year dto.month =
        assignedFor db.entries c dto.year dto.month ∧
      assignedFor db2.entries pc dto.year dto.month =
        assignedFor db.entries pc dto.year dto.month := by
  obtain ⟨t, n, hrows, g1, g2, g3, g4, g5, g6, htxns, hn, htid, hn1, htb, hta, hty, htm,
    hamt, htcat, htF, htS, htG, eSc, ePc, -⟩ :=
    createTransaction_ccSpend_exec db userId dto hT hS hsrc hbud huser hcid hneg hcc hpc
      hcpc hvc hvpc hok
  obtain ⟨hsrcId, hsrcMem⟩ := findAccount_inv hsrc
  have hsrcAcc : findAccount db src.id = some src := by rw [hsrcId]; exact hsrc
  have huser2 : (bud.userId != userId) = false := by simp [huser]
  have hfound : findTxn db1 t.id = some t := by
    unfold findTxn
    rw [htxns, List.find?_append]
    have hnone : db.txns.find? (fun u => u.id == t.id) = none := by
      refine List.find?_eq_none.mpr (fun u hu => ?_)
      have := Hid u hu
      simp only [beq_iff_eq]
      rw [htid]
      omega
    rw [hnone]
    simp [List.find?]
  have hfB : findBudget db1 t.budgetId = some bud := by
    rw [findBudget_congr g1, htb]
    exact hbud
  have hA1 : findAccount db1 t.accountId = some src := by
    rw [findAccount_congr g2, hta]
    exact hsrcAcc
  have hb2 : accountIsCC (some src) = true := by simp [accountIsCC, hcc]
  have hccb : (src.type == AccountType.CREDIT_CARD) = true := by simp [hcc]
  have hb5 : decIsPositive t.amount = false := by
    rw [hamt]
    simp only [decIsPositive, decide_eq_false_iff_not]
    exact not_le.mpr hneg
  have hb3 : decIsNegative t.amount = true := by
    rw [hamt]
    simp only [decIsNegative, decide_eq_true_eq]
    exact hneg
  have hb4 : t.categoryId.isSome = true := by rw [htcat]; rfl
  have hcpcb : (c != pc) = true := by simp [hcpc]
  have hv1c : categoryInBudget db1 c t.budgetId = true := by
    rw [categoryInBudget_congr g4 g3, htb]
    exact hvc
  have hv1pc : categoryInBudget db1 pc t.budgetId = true := by
    rw [categoryInBudget_congr g4 g3, htb]
    exact hvpc
  have hapos : 0 < abs t.amount := by
    rw [hamt]
    exact abs_pos.mpr (ne_of_lt hneg)
  obtain ⟨db4, hrev, frame4, r1, r2, r3⟩ :=
    revertBudgetAdjustmentForCreditSpending_spec db1 t.year t.month hv1c hv1pc hapos hcpc
  refine ⟨t, hrows, ⟨{ db4 with
    splits := db4.splits.filter (fun s => !([t.id].contains s.transactionId))
    txns := db4.txns.filter (fun u => !([t.id].contains u.id)) }, ?_, ?_, ?_⟩⟩
  · unfold deleteTransaction
    simp only [hfound, hfB, huser2, Bool.false_eq_true, if_false, htF, htcat, hA1,
      accountIsCC, hb2, hb3, hb4, hb5, hccb, Bool.not_false, Bool.and_true, Bool.true_and,
      Option.isSome_none, Option.isSome_some, Bool.and_false, Option.toList_none,
      hpc, hcpcb, if_true, hrev]
  · show assignedFor db4.entries c dto.year dto.month =
      assignedFor db.entries c dto.year dto.month
    rw [hty, htm] at r1
    rw [r1, eSc, hamt]
    ring
  · show assignedFor db4.entries pc dto.year dto.month =
      assignedFor db.entries pc dto.year dto.month
    rw [hty, htm] at r2
    rw [r2, ePc, hamt]
    have h0s : (0 : ℚ) ≤ assignedFor db.entries c dto.year dto.month :=
      le_trans (le_of_lt (abs_pos.mpr (ne_of_lt hneg))) hcover
    rw [max_eq_right h0s, min_eq_left hcover]
    ring

/-- Witness for C2: creating then deleting the covered 60 spend restores
category 100 to 200 and payment category 101 to its prior value. -/
theorem createTransaction_c2_witness :
    ∃ t, [c1Row] = [t] ∧ ∃ db2, deleteTransaction c1Db1 1 t.id = .ok db2 ∧
      assignedFor db2.entries 100 2024 4 = assignedFor engDb.entries 100 2024 4 ∧
      assignedFor db2.entries 101 2024 4 = assignedFor engDb.entries 101 2024 4 :=
  createTransaction_c2 engDb 1 c1Dto rfl rfl rfl rfl rfl rfl (by norm_num [c1Dto]) rfl rfl
    (by decide) rfl rfl
    (by norm_num [c1Dto, show assignedFor engDb.entries 100 2024 4 = (200 : ℚ) from rfl])
    (by intro u hu; simp [engDb] at hu) (by with_unfolding_all rfl)

/-- The split-children loop appends exactly the mapped child rows and
returns their sum; it touches nothing else. -/
lemma createSplits_spec {db : Db} {b tid : Nat} {ss : List SplitDto} {db2 : Db}
    {total : ℚ} (h : createSplits db b tid ss = .ok (db2, total)) :
    db2.splits = db.splits ++ ss.map (fun s => (⟨tid, s.categoryId, s.amount⟩ : SplitRow)) ∧
    total = (ss.map (fun s => s.amount)).sum ∧
    db2.budgets = db.budgets ∧ db2.accounts = db.accounts ∧ db2.groups = db.groups ∧
    db2.categories = db.categories ∧ db2.entries = db.entries ∧ db2.payees = db.payees ∧
    db2.txns = db.txns ∧ db2.goals = db.goals ∧ db2.nextId = db.nextId := by
  induction ss generalizing db total with
  | nil =>
    unfold createSplits at h
    simp only [Except.ok.injEq, Prod.mk.injEq] at h
    obtain ⟨h1, h2⟩ := h
    subst h1
    simp [← h2]
  | cons s rest ih =>
    unfold createSplits at h
    by_cases hv : categoryInBudget db s.categoryId b = true
    · rw [if_pos hv] at h
      cases hr : createSplits
          { db with splits := db.splits ++ [⟨tid, s.categoryId, s.amount⟩] } b tid rest with
      | error e =>
        rw [hr] at h
        exact absurd h (by simp)
      | ok p =>
        obtain ⟨db3, t3⟩ := p
        rw [hr] at h
        simp only [Except.ok.injEq, Prod.mk.injEq] at h
        obtain ⟨h1, h2⟩ := h
        subst h1
        obtain ⟨i1, i2, i3, i4, i5, i6, i7, i8, i9, i10, i11⟩ := ih hr
        refine ⟨?_, ?_, i3, i4, i5, i6, i7, i8, i9, i10, i11⟩
        · rw [i1]
          simp
        · rw [← h2, i2]
          simp
    · rw [if_neg hv] at h
      exact absurd h (by simp)

/-- The payment block is inert on a non-transfer row. -/
lemma ccTransferPaymentOnCreate_nonTransfer (db : Db) (b y m : Nat) (amt : ℚ)
    (src : Account) (destO : Option Account) (t : Txn) (count : Nat)
    (hX : t.isTransfer = false) :
    ccTransferPaymentOnCreate db b y m amt src destO t count = .ok db := by
  unfold ccTransferPaymentOnCreate
  simp [hX]

/-- Claim C6 (amended): for NON-TRANSFER requests the split invariant holds:
an accepted split creation persists one parent row with no category whose
split children sum to its amount (which is the request amount), and a
mismatched-sum request is rejected and persists nothing.  (A transfer
request flagged isSplit is accepted with no children at all, which is why
the claim is restricted to non-transfers.) -/
theorem createTransaction_c6 (db : Db) (userId : Nat) (dto : CreateTransactionDto)
    (hT : dto.isTransfer = false) (hS : dto.isSplit = true)
    (Hsp : ∀ s ∈ db.splits, s.transactionId < db.nextId) :
    (∀ db1 rows, createTransaction db userId dto = .ok (db1, rows) →
      ∃ t ss, rows = [t] ∧ t.isSplit = true ∧ t.categoryId = none ∧
        t.amount = dto.amount ∧ dto.splits = some ss ∧
        (ss.map (fun s => s.amount)).sum = dto.amount ∧
        ((db1.splits.filter (fun s => s.transactionId == t.id)).map
          (fun s => s.amount)).sum = t.amount) ∧
    (∀ ss, dto.splits = some ss → (ss.map (fun s => s.amount)).sum ≠ dto.amount →
      (∀ r, createTransaction db userId dto ≠ .ok r) ∧
      createTransactionRun db userId dto = db) := by
  have part1 : ∀ db1 rows, createTransaction db userId dto = .ok (db1, rows) →
      ∃ t ss, rows = [t] ∧ t.isSplit = true ∧ t.categoryId = none ∧
        t.amount = dto.amount ∧ dto.splits = some ss ∧
        (ss.map (fun s => s.amount)).sum = dto.amount ∧
        ((db1.splits.filter (fun s => s.transactionId == t.id)).map
          (fun s => s.amount)).sum = t.amount := by
    intro db1 rows hok
    unfold createTransaction at hok
    simp only [hT, Bool.false_eq_true, if_false] at hok
    cases hfa : findAccount db dto.accountId with
    | none =>
      simp only [hfa] at hok
      exact absurd hok (by simp)
    | some src =>
      simp only [hfa] at hok
      cases hfb : findBudget db src.budgetId with
      | none =>
        simp only [hfb] at hok
        exact absurd hok (by simp)
      | some bud =>
        simp only [hfb] at hok
        by_cases hu : (bud.userId != userId) = true
        · rw [if_pos hu] at hok
          exact absurd hok (by simp)
        · rw [if_neg hu] at hok
          cases hp1 : resolvePayee db src.budgetId dto.payeeId dto.payeeName with
          | error e =>
            simp only [hp1] at hok
            exact absurd hok (by simp)
          | ok pA =>
            obtain ⟨dbA, rA⟩ := pA
            simp only [hp1] at hok
            obtain ⟨fA1, fA2, fA3, fA4, fA5, fA6, fA7, fA8, fA9⟩ := resolvePayee_frame hp1
            cases hcid : dto.categoryId with
            | some cid =>
              simp only [hcid, hS, Bool.not_true, Bool.false_eq_true, if_false,
                Option.isSome_some, Bool.and_true, Bool.and_self, if_true] at hok
              exact absurd hok (by simp)
            | none =>
              simp only [hcid, hS, Bool.not_true, Bool.false_eq_true, if_false,
                Option.isSome_none, Bool.and_false, Bool.and_true, Bool.not_false,
                if_true] at hok
              cases hp2 : resolvePayee dbA src.budgetId dto.payeeId dto.payeeName with
              | error e =>
                simp only [hp2] at hok
                exact absurd hok (by simp)
              | ok pB =>
                obtain ⟨dbB, rB⟩ := pB
                simp only [hp2, Bool.true_and, Bool.not_false] at hok
                obtain ⟨fB1, fB2, fB3, fB4, fB5, fB6, fB7, fB8, fB9⟩ :=
                  resolvePayee_frame hp2
                set t : Txn :=
                  { id := dbB.nextId
                    budgetId := src.budgetId
                    accountId := src.id
                    year := dto.year
                    month := dto.month
                    amount := dto.amount
                    payeeId := rB
                    categoryId := none
                    cleared := dto.cleared.getD ClearedStatus.UNCLEARED
                    approved := dto.approved.getD false
                    isTransfer := false
                    transferGroupId := none
                    transferAccountId := none
                    isSplit := true } with ht
                set db3 : Db :=
                  { dbB with txns := dbB.txns ++ [t], nextId := dbB.nextId + 1 } with hdb3
                cases hss : dto.splits with
                | none =>
                  simp only [hss] at hok
                  exact absurd hok (by simp)
                | some ss =>
                  simp only [hss] at hok
                  by_cases hlen : ss.length > 0
                  · rw [if_pos hlen] at hok
                    cases hcs : createSplits db3 src.budgetId t.id ss with
                    | error e =>
                      simp only [hcs] at hok
                      exact absurd hok (by simp)
                    | ok p4 =>
                      obtain ⟨db4, total⟩ := p4
                      simp only [hcs] at hok
                      obtain ⟨j1, j2, j3, j4, j5, j6, j7, j8, j9, j10, j11⟩ :=
                        createSplits_spec hcs
                      by_cases hmm2 : (total != t.amount) = true
                      · rw [if_pos hmm2] at hok
                        exact absurd hok (by simp)
                      · rw [if_neg hmm2] at hok
                        have htot : total = t.amount := by
                          simpa using hmm2
                        cases hcc2 : ccAdjustOnCreate db4 src.budgetId dto.year dto.month
                            dto.amount src none [t] with
                        | error e =>
                          simp only [hcc2] at hok
                          exact absurd hok (by simp)
                        | ok dbC =>
                          simp only [hcc2] at hok
                          simp only [Except.ok.injEq, Prod.mk.injEq] at hok
                          obtain ⟨hdb1, hrows⟩ := hok
                          obtain ⟨k1, k2, k3, k4, k5, k6, k7, k8, k9⟩ :=
                            ccAdjustOnCreate_sameExcept hcc2
                          have hsplits1 : db1.splits = db.splits ++ ss.map
                              (fun s => (⟨t.id, s.categoryId, s.amount⟩ : SplitRow)) := by
                            rw [← hdb1, k7, j1]
                            show dbB.splits ++ _ = db.splits ++ _
                            rw [fB7.trans fA7]
                          have htid : db.nextId ≤ t.id := le_trans fA9 fB9
                          have hsum : ((db1.splits.filter
                              (fun s => s.transactionId == t.id)).map
                              (fun s => s.amount)).sum = t.amount := by
                            rw [hsplits1, List.filter_append]
                            have hold : db.splits.filter
                                (fun s => s.transactionId == t.id) = [] := by
                              refine List.filter_eq_nil_iff.mpr (fun s hs => ?_)
                              have := Hsp s hs
                              simp only [beq_iff_eq]
                              omega
                            have hnew : (ss.map (fun s =>
                                (⟨t.id, s.categoryId, s.amount⟩ : SplitRow))).filter
                                (fun s => s.transactionId == t.id) = ss.map (fun s =>
                                (⟨t.id, s.categoryId, s.amount⟩ : SplitRow)) := by
                              refine List.filter_eq_self.mpr (fun s hs => ?_)
                              obtain ⟨s0, hs0, hmap⟩ := List.mem_map.mp hs
                              rw [← hmap]
                              simp
                            rw [hold, hnew, List.nil_append, List.map_map]
                            rw [← htot, j2]
                            rfl
                          refine ⟨t, ss, hrows.symm, rfl, rfl, rfl, rfl, ?_, hsum⟩
                          rw [← j2, htot]
                  · rw [if_neg hlen] at hok
                    exact absurd hok (by simp)
  refine ⟨part1, ?_⟩
  intro ss hss hsum
  have hnone : ∀ r, createTransaction db userId dto ≠ .ok r := by
    intro r hok2
    obtain ⟨db1x, rowsx⟩ := r
    obtain ⟨t, ss2, -, -, -, -, hss2, hsum2, -⟩ := part1 db1x rowsx hok2
    rw [hss] at hss2
    have : ss = ss2 := by injection hss2
    rw [← this] at hsum2
    exact hsum hsum2
  refine ⟨hnone, ?_⟩
  unfold createTransactionRun
  cases hrun : createTransaction db userId dto with
  | ok p => exact absurd hrun (hnone p)
  | error e => rfl

/-- Concrete split request for the C6 witness. -/
def c6Dto : CreateTransactionDto :=
  { accountId := 10, year := 2024, month := 4, amount := -50, isSplit := true,
    splits := some [⟨100, -20⟩, ⟨102, -30⟩] }

/-- Parent row persisted by the witness split. -/
def c6Row : Txn :=
  ⟨1000, 1, 10, 2024, 4, -50, none, none, ClearedStatus.UNCLEARED, false, false,
    none, none, true⟩

/-- Store after the witness split creation. -/
def c6Db1 : Db :=
  { engDb with
    txns := [c6Row]
    splits := [⟨1000, 100, -20⟩, ⟨1000, 102, -30⟩]
    nextId := 1001 }

/-- Witness for C6: a -50 split into -20 and -30 is accepted and its
children sum to the parent amount. -/
theorem createTransaction_c6_witness :
    ∃ t ss, [c6Row] = [t] ∧ t.isSplit = true ∧ t.categoryId = none ∧
      t.amount = c6Dto.amount ∧ c6Dto.splits = some ss ∧
      (ss.map (fun s => s.amount)).sum = c6Dto.amount ∧
      ((c6Db1.splits.filter (fun s => s.transactionId == t.id)).map
        (fun s => s.amount)).sum = t.amount :=
  (createTransaction_c6 engDb 1 c6Dto rfl rfl (by intro s hs; simp [engDb] at hs)).1
    c6Db1 [c6Row] (by with_unfolding_all rfl)

/-- Transfer request flagged isSplit for the C6 counterexample. -/
def c6CexDto : CreateTransactionDto :=
  { accountId := 10, year := 2024, month := 4, amount := 5, isTransfer := true,
    transferAccountId := some 14, isSplit := true, splits := some [⟨100, 5⟩] }

/-- Source row of the counterexample: flagged isSplit with no children. -/
def c6CexRow1 : Txn :=
  ⟨1001, 1, 10, 2024, 4, -5, none, none, ClearedStatus.UNCLEARED, false, true,
    some 1000, some 14, true⟩

/-- Destination row of the counterexample. -/
def c6CexRow2 : Txn :=
  ⟨1002, 1, 14, 2024, 4, 5, none, none, ClearedStatus.UNCLEARED, false, true,
    some 1000, some 10, true⟩

/-- Store after the counterexample creation: no split child was persisted. -/
def c6CexDb1 : Db := { engDb with txns := [c6CexRow1, c6CexRow2], nextId := 1003 }

/-- Counterexample for C6 as stated: a transfer request flagged isSplit is
accepted; the persisted rows carry isSplit = true yet have no split
children, so the child amounts do not sum to the parent amount. -/
theorem createTransaction_c6_cex :
    createTransaction engDb 1 c6CexDto = .ok (c6CexDb1, [c6CexRow1, c6CexRow2]) ∧
    c6CexRow1.isSplit = true ∧
    ((c6CexDb1.splits.filter (fun s => s.transactionId == c6CexRow1.id)).map
      (fun s => s.amount)).sum ≠ c6CexRow1.amount :=
  ⟨by with_unfolding_all rfl, rfl, by norm_num [c6CexDb1, c6CexRow1, engDb]⟩

lemma getCcBudgetType_eq_NONE {a : Account}
    (h : ¬(a.type = AccountType.CREDIT_CARD ∧ a.paymentCategoryId.isSome = true))
    (t : Txn) :
    getCcBudgetType t (some a) = CcBudgetType.NONE := by
  unfold getCcBudgetType
  by_cases hcc : a.type = AccountType.CREDIT_CARD
  · cases hpc : a.paymentCategoryId with
    | none => simp [hcc, hpc]
    | some pc => exact absurd ⟨hcc, by simp [hpc]⟩ h
  · simp [bne_iff_ne, hcc]

lemma applyTransactionUpdate_frame {db : Db} {transactionId : Nat}
    {dto : UpdateTransactionDto} {t0 : Txn} {acct0 : Account} {bId : Nat}
    {pp cp : Option (Option Nat)} {db1 : Db} {t' : Txn}
    (hpre : ¬(acct0.type = AccountType.CREDIT_CARD ∧ acct0.paymentCategoryId.isSome = true))
    (hpost : ∀ aid a, dto.accountId = some aid → findAccount db aid = some a →
      ¬(a.type = AccountType.CREDIT_CARD ∧ a.paymentCategoryId.isSome = true))
    (hok : applyTransactionUpdate db transactionId dto t0 acct0 bId
      CcBudgetType.NONE pp cp = .ok (db1, t')) :
    db1.entries = db.entries ∧ db1.budgets = db.budgets ∧ db1.accounts = db.accounts ∧
    db1.groups = db.groups ∧ db1.categories = db.categories ∧ db1.payees = db.payees ∧
    db1.splits = db.splits ∧ db1.goals = db.goals ∧ db1.nextId = db.nextId ∧
    db1.txns = db.txns.map (fun u => if u.id == transactionId then t' else u) := by
  simp only [applyTransactionUpdate] at hok
  cases haid : dto.accountId with
  | none =>
    simp only [haid] at hok
    by_cases hsp : (dto.amount.isSome && t0.isSplit) = true
    · rw [if_pos hsp] at hok
      exact absurd hok (by simp)
    · simp only [if_neg hsp, getCcBudgetType_eq_NONE hpre, bne_self_eq_false,
        Bool.false_eq_true, if_false, Except.ok.injEq, Prod.mk.injEq] at hok
      obtain ⟨hdb, ht⟩ := hok
      subst ht
      rw [← hdb]
      exact ⟨rfl, rfl, rfl, rfl, rfl, rfl, rfl, rfl, rfl, rfl⟩
  | some aid =>
    simp only [haid] at hok
    by_cases hne : (aid != t0.accountId) = true
    · rw [if_pos hne] at hok
      cases hfa : findAccount db aid with
      | none =>
        simp only [hfa] at hok
        exact absurd hok (by simp)
      | some acc =>
        by_cases hbm : (acc.budgetId != bId) = true
        · simp only [hfa, if_pos hbm] at hok
          exact absurd hok (by simp)
        · by_cases hsp : (dto.amount.isSome && t0.isSplit) = true
          · simp only [hfa, if_neg hbm, if_pos hsp] at hok
            exact absurd hok (by simp)
          · simp only [hfa, if_neg hbm, if_neg hsp,
              getCcBudgetType_eq_NONE (hpost aid acc haid hfa), bne_self_eq_false,
              Bool.false_eq_true, if_false, Except.ok.injEq, Prod.mk.injEq] at hok
            obtain ⟨hdb, ht⟩ := hok
            subst ht
            rw [← hdb]
            exact ⟨rfl, rfl, rfl, rfl, rfl, rfl, rfl, rfl, rfl, rfl⟩
    · by_cases hsp : (dto.amount.isSome && t0.isSplit) = true
      · simp only [if_neg hne, if_pos hsp] at hok
        exact absurd hok (by simp)
      · simp only [if_neg hne, if_neg hsp, getCcBudgetType_eq_NONE hpre,
          bne_self_eq_false, Bool.false_eq_true, if_false,
          Except.ok.injEq, Prod.mk.injEq] at hok
        obtain ⟨hdb, ht⟩ := hok
        subst ht
        rw [← hdb]
        exact ⟨rfl, rfl, rfl, rfl, rfl, rfl, rfl, rfl, rfl, rfl⟩

lemma resolvePayee_payees {db : Db} {b : Nat} {pid : Option Nat} {nm : Option String}
    {db1 : Db} {r : Option Nat} (h : resolvePayee db b pid nm = .ok (db1, r)) :
    db1.payees = db.payees ∨ ∃ p, db1.payees = db.payees ++ [p] := by
  cases pid with
  | some p =>
    simp only [resolvePayee, Except.ok.injEq, Prod.mk.injEq] at h
    rw [← h.1]
    exact Or.inl rfl
  | none =>
    cases nm with
    | none =>
      simp only [resolvePayee, Except.ok.injEq, Prod.mk.injEq] at h
      rw [← h.1]
      exact Or.inl rfl
    | some s =>
      simp only [resolvePayee, findOrCreatePayeeByName] at h
      by_cases he : (s.trim == "") = true
      · rw [if_pos he] at h
        exact absurd h (by simp)
      · rw [if_neg he] at h
        cases hf : db.payees.find? (fun p => p.budgetId == b && p.name == s.trim) with
        | some p =>
          rw [hf] at h
          simp only [Except.ok.injEq, Prod.mk.injEq] at h
          rw [← h.1]
          exact Or.inl rfl
        | none =>
          rw [hf] at h
          simp only [Except.ok.injEq, Prod.mk.injEq] at h
          rw [← h.1]
          exact Or.inr ⟨_, rfl⟩

lemma c10_assemble {db dbA db1 : Db} {t' : Txn} {transactionId : Nat}
    (hA : sameExceptPayees db dbA)
    (hp : dbA.payees = db.payees ∨ ∃ p, dbA.payees = db.payees ++ [p])
    (hf : db1.entries = dbA.entries ∧ db1.budgets = dbA.budgets ∧
      db1.accounts = dbA.accounts ∧ db1.groups = dbA.groups ∧
      db1.categories = dbA.categories ∧ db1.payees = dbA.payees ∧
      db1.splits = dbA.splits ∧ db1.goals = dbA.goals ∧ db1.nextId = dbA.nextId ∧
      db1.txns = dbA.txns.map (fun u => if u.id == transactionId then t' else u)) :
    db1.entries = db.entries ∧
    (∀ c y m, assignedFor db1.entries c y m = assignedFor db.entries c y m) ∧
    db1.txns = db.txns.map (fun u => if u.id == transactionId then t' else u) ∧
    db1.accounts = db.accounts ∧ db1.categories = db.categories ∧
    db1.groups = db.groups ∧ db1.splits = db.splits ∧ db1.goals = db.goals ∧
    (db1.payees = db.payees ∨ ∃ p, db1.payees = db.payees ++ [p]) := by
  obtain ⟨hb, ha, hg, hc, he, ht, hs, hgo, _⟩ := hA
  obtain ⟨f1, _, f3, f4, f5, f6, f7, f8, _, f10⟩ := hf
  refine ⟨f1.trans he, ?_, ?_, f3.trans ha, f5.trans hc, f4.trans hg,
    f7.trans hs, f8.trans hgo, ?_⟩
  · intro c y m
    rw [f1, he]
  · rw [f10, ht]
  · rw [f6]
    exact hp

/-- C10 (amended): a successful `updateTransaction` call in which neither
the transaction's pre-update account nor its post-update account is a
credit-card account with a linked payment category leaves the BudgetEntry
table unchanged (so every category's assigned amount for every month is
unchanged); the account, category, group, split and goal tables are
untouched and the transaction table changes only in the matching row.  It
is NOT true that only the transaction row itself changes: resolving a
supplied payeeName may create a Payee row in the same successful call, so
the payee table is either unchanged or extended by exactly one row. -/
theorem updateTransaction_c10 (db : Db) (userId transactionId : Nat)
    (dto : UpdateTransactionDto) (db1 : Db) (t' : Txn) (t0 : Txn) (acct0 : Account)
    (ht0 : findTxn db transactionId = some t0)
    (hacct0 : findAccount db t0.accountId = some acct0)
    (hpre : ¬(acct0.type = AccountType.CREDIT_CARD ∧ acct0.paymentCategoryId.isSome = true))
    (hpost : ∀ aid a, dto.accountId = some aid → findAccount db aid = some a →
      ¬(a.type = AccountType.CREDIT_CARD ∧ a.paymentCategoryId.isSome = true))
    (hok : updateTransaction db userId transactionId dto = .ok (db1, t')) :
    db1.entries = db.entries ∧
    (∀ c y m, assignedFor db1.entries c y m = assignedFor db.entries c y m) ∧
    db1.txns = db.txns.map (fun u => if u.id == transactionId then t' else u) ∧
    db1.accounts = db.accounts ∧ db1.categories = db.categories ∧
    db1.groups = db.groups ∧ db1.splits = db.splits ∧ db1.goals = db.goals ∧
    (db1.payees = db.payees ∨ ∃ p, db1.payees = db.payees ++ [p]) := by
  unfold updateTransaction at hok
  cases hfb : findBudget db t0.budgetId with
  | none =>
    simp only [ht0, hacct0, hfb] at hok
    exact absurd hok (by simp)
  | some bud =>
    simp only [ht0, hacct0, hfb] at hok
    by_cases hu : (bud.userId != userId) = true
    · rw [if_pos hu] at hok
      exact absurd hok (by simp)
    · rw [if_neg hu] at hok
      rw [getCcBudgetType_eq_NONE hpre t0] at hok
      by_cases hpp : (dto.payeeId.isSome || dto.payeeName.isSome) = true
      · rw [if_pos hpp] at hok
        cases hrp : resolvePayee db t0.budgetId dto.payeeId dto.payeeName with
        | error e =>
          simp only [hrp] at hok
          exact absurd hok (by simp)
        | ok pr =>
          obtain ⟨dbA, pid⟩ := pr
          simp only [hrp] at hok
          have hA := resolvePayee_frame hrp
          have hPay := resolvePayee_payees hrp
          have hpost' : ∀ aid a, dto.accountId = some aid →
              findAccount dbA aid = some a →
              ¬(a.type = AccountType.CREDIT_CARD ∧ a.paymentCategoryId.isSome = true) := by
            intro aid a h1 h2
            rw [findAccount_congr hA.2.1 aid] at h2
            exact hpost aid a h1 h2
          by_cases hsp0 : (!t0.isSplit) = true
          · rw [if_pos hsp0] at hok
            cases hcid : dto.categoryId with
            | none =>
              simp only [hcid] at hok
              exact c10_assemble hA hPay (applyTransactionUpdate_frame hpre hpost' hok)
            | some oc =>
              cases oc with
              | none =>
                simp only [hcid] at hok
                exact c10_assemble hA hPay (applyTransactionUpdate_frame hpre hpost' hok)
              | some cid =>
                simp only [hcid] at hok
                by_cases hcb : categoryInBudget dbA cid t0.budgetId = true
                · rw [if_pos hcb] at hok
                  simp only [] at hok
                  exact c10_assemble hA hPay (applyTransactionUpdate_frame hpre hpost' hok)
                · rw [if_neg hcb] at hok
                  exact absurd hok (by simp)
          · rw [if_neg hsp0] at hok
            exact c10_assemble hA hPay (applyTransactionUpdate_frame hpre hpost' hok)
      · simp only [if_neg hpp] at hok
        have hA : sameExceptPayees db db :=
          ⟨rfl, rfl, rfl, rfl, rfl, rfl, rfl, rfl, le_refl _⟩
        by_cases hsp0 : (!t0.isSplit) = true
        · rw [if_pos hsp0] at hok
          cases hcid : dto.categoryId with
          | none =>
            simp only [hcid] at hok
            exact c10_assemble hA (Or.inl rfl) (applyTransactionUpdate_frame hpre hpost hok)
          | some oc =>
            cases oc with
            | none =>
              simp only [hcid] at hok
              exact c10_assemble hA (Or.inl rfl) (applyTransactionUpdate_frame hpre hpost hok)
            | some cid =>
              simp only [hcid] at hok
              by_cases hcb : categoryInBudget db cid t0.budgetId = true
              · rw [if_pos hcb] at hok
                simp only [] at hok
                exact c10_assemble hA (Or.inl rfl) (applyTransactionUpdate_frame hpre hpost hok)
              · rw [if_neg hcb] at hok
                exact absurd hok (by simp)
        · rw [if_neg hsp0] at hok
          exact c10_assemble hA (Or.inl rfl) (applyTransactionUpdate_frame hpre hpost hok)

/-- Existing transaction for the C10 witness: a categorized spend on the
checking account. -/
def c10Row0 : Txn :=
  ⟨5000, 1, 10, 2024, 4, -40, none, some 100, ClearedStatus.UNCLEARED, false, false,
    none, none, false⟩

/-- Store holding the C10 witness transaction. -/
def c10Db : Db := { engDb with txns := [c10Row0] }

/-- Update request for the C10 witness: change the amount only. -/
def c10Dto : UpdateTransactionDto := { amount := some (-25) }

/-- The row after the C10 witness update. -/
def c10Row1 : Txn :=
  ⟨5000, 1, 10, 2024, 4, -25, none, some 100, ClearedStatus.UNCLEARED, false, false,
    none, none, false⟩

/-- Post-update store of the C10 witness: only the transaction row changed. -/
def c10Db1 : Db := { c10Db with txns := [c10Row1] }

lemma foldl_add_init {α : Type} (f : α → ℚ) (l : List α) (s : ℚ) :
    l.foldl (fun acc a => acc + f a) s = s + (l.map f).sum := by
  induction l generalizing s with
  | nil => simp
  | cons a l ih => simp [List.foldl_cons, ih, add_assoc]

lemma find?_beq_of_mem_nodup {α : Type} (key : α → Nat) {l : List α}
    (hn : (l.map key).Nodup) {c : α} (hc : c ∈ l) :
    l.find? (fun x => key x == key c) = some c := by
  induction l with
  | nil => cases hc
  | cons a l ih =>
    rw [List.map_cons, List.nodup_cons] at hn
    rcases List.mem_cons.mp hc with rfl | hc2
    · rw [List.find?_cons_of_pos]
      simp
    · have hne : ¬(key a == key c) = true := by
        simp only [beq_iff_eq]
        intro h
        exact hn.1 (h ▸ List.mem_map_of_mem key hc2)
      rw [List.find?_cons_of_neg]
      · exact ih hn.2 hc2
      · exact hne

lemma budgetCategories_inBudget {db : Db} {budgetId : Nat}
    (hcn : (db.categories.map Category.id).Nodup)
    (hgn : (db.groups.map CategoryGroup.id).Nodup)
    {c : Category} (hc : c ∈ budgetCategories db budgetId) :
    categoryInBudget db c.id budgetId = true := by
  unfold budgetCategories at hc
  rw [List.mem_flatMap] at hc
  obtain ⟨g, hg, hcf⟩ := hc
  rw [List.mem_filter] at hg hcf
  have h1 : findCategory db c.id = some c :=
    find?_beq_of_mem_nodup Category.id hcn hcf.1
  have he : c.groupId = g.id := by simpa using hcf.2
  have h2 : findGroup db c.groupId = some g := by
    rw [he]
    exact find?_beq_of_mem_nodup CategoryGroup.id hgn hg.1
  have h3 : g.budgetId = budgetId := by simpa using hg.2
  simp [categoryInBudget, categoryBudgetId, h1, h2, h3]

lemma filterMonth_find?_eq_findEntry (db : Db) (budgetId year month cid : Nat)
    (hcb : categoryInBudget db cid budgetId = true) (es : List EntryRow) :
    (es.filter (fun e => categoryInBudget db e.categoryId budgetId &&
        e.year == year && e.month == month)).find? (fun e => e.categoryId == cid) =
      findEntry es cid year month := by
  simp only [findEntry]
  induction es with
  | nil => rfl
  | cons e es ih =>
    by_cases hP : (categoryInBudget db e.categoryId budgetId &&
        e.year == year && e.month == month) = true
    · by_cases hcEq : (e.categoryId == cid) = true
      · have hm : entryMatches e cid year month = true := by
          rw [entryMatches_iff]
          have h4 := hP
          simp only [Bool.and_eq_true, beq_iff_eq] at h4
          exact ⟨by simpa using hcEq, h4.1.2, h4.2⟩
        rw [List.filter_cons_of_pos, List.find?_cons_of_pos, List.find?_cons_of_pos]
        · exact hm
        · exact hcEq
        · exact hP
      · have hm : ¬entryMatches e cid year month = true := by
          intro hx
          exact hcEq (by simpa using (entryMatches_iff.mp hx).1)
        rw [List.filter_cons_of_pos, List.find?_cons_of_neg, List.find?_cons_of_neg]
        · exact ih
        · exact hm
        · exact hcEq
        · exact hP
    · have hm : ¬entryMatches e cid year month = true := by
        intro hx
        rcases entryMatches_iff.mp hx with ⟨h1, h2, h3⟩
        exact hP (by rw [h1, h2, h3]; simp [hcb])
      rw [List.filter_cons_of_neg, List.find?_cons_of_neg]
      · exact ih
      · exact hm
      · exact hP

/-- The specification's wording of C4's total income: the sum of the month's
uncategorized, positive, non-transfer transactions, with no condition on the
transaction's split status.  This definition follows the spec text rather
than the source, for comparison with `getBudgetView`. -/
def specTotalIncome (db : Db) (budgetId year month : Nat) : ℚ :=
  ((db.txns.filter (fun t => t.budgetId == budgetId && t.year == year &&
    t.month == month && !t.isTransfer && t.categoryId.isNone &&
    decide (0 < t.amount))).map Txn.amount).sum

/-- C4 (amended): under the primary-key uniqueness of category and group
ids, a successful `getBudgetView` returns `totalAssigned` equal to the sum
over the budget's categories of their assigned amount for the month
(0 when no BudgetEntry row exists), `totalIncome` equal to the sum of the
month's NON-SPLIT uncategorized, positive, non-transfer transactions (the
claim's wording omits the non-split condition), and
`toBeBudgeted = totalIncome - totalAssigned`, for every month including
ones with no activity. -/
theorem getBudgetView_c4 (db : Db) (userId budgetId year month : Nat)
    (r : BudgetViewResponse)
    (hcn : (db.categories.map Category.id).Nodup)
    (hgn : (db.groups.map CategoryGroup.id).Nodup)
    (hok : getBudgetView db userId budgetId year month = .ok r) :
    r.totalAssigned = ((budgetCategories db budgetId).map
      (fun c => assignedFor db.entries c.id year month)).sum ∧
    r.totalIncome = ((db.txns.filter (fun t =>
      (!t.isSplit && t.categoryId.isNone && decide (0 < t.amount)) &&
      (t.budgetId == budgetId && t.year == year && t.month == month &&
        !t.isTransfer))).map Txn.amount).sum ∧
    r.toBeBudgeted = r.totalIncome - r.totalAssigned := by
  unfold getBudgetView at hok
  cases hb : getBudgetById db userId budgetId with
  | error e =>
    rw [hb] at hok
    exact absurd hok (by simp)
  | ok bud =>
    simp only [hb] at hok
    have hTA : (budgetCategories db budgetId).foldl (fun s c =>
        s + ((((db.entries.filter (fun e => categoryInBudget db e.categoryId budgetId &&
          e.year == year && e.month == month)).find? (fun e => e.categoryId == c.id)).map
          (fun e => e.assignedAmount)).getD 0)) 0 = r.totalAssigned :=
      congrArg BudgetViewResponse.totalAssigned (Except.ok.inj hok)
    have hTI : ((db.txns.filter (fun t => t.budgetId == budgetId && t.year == year &&
        t.month == month && !t.isTransfer)).filter (fun t => !t.isSplit &&
        t.categoryId.isNone && decide (0 < t.amount))).foldl
          (fun s t => s + t.amount) 0 = r.totalIncome :=
      congrArg BudgetViewResponse.totalIncome (Except.ok.inj hok)
    have hTBB : ((db.txns.filter (fun t => t.budgetId == budgetId && t.year == year &&
        t.month == month && !t.isTransfer)).filter (fun t => !t.isSplit &&
        t.categoryId.isNone && decide (0 < t.amount))).foldl
          (fun s t => s + t.amount) 0 -
        (budgetCategories db budgetId).foldl (fun s c =>
        s + ((((db.entries.filter (fun e => categoryInBudget db e.categoryId budgetId &&
          e.year == year && e.month == month)).find? (fun e => e.categoryId == c.id)).map
          (fun e => e.assignedAmount)).getD 0)) 0 = r.toBeBudgeted :=
      congrArg BudgetViewResponse.toBeBudgeted (Except.ok.inj hok)
    refine ⟨?_, ?_, ?_⟩
    · rw [← hTA, foldl_add_init, zero_add]
      refine congrArg List.sum (List.map_congr_left ?_)
      intro c hc
      have hcb := budgetCategories_inBudget hcn hgn hc
      rw [filterMonth_find?_eq_findEntry db budgetId year month c.id hcb db.entries]
      rfl
    · rw [← hTI, foldl_add_init, zero_add, List.filter_filter]
    · rw [← hTBB, ← hTA, ← hTI]

/-- Uncategorized positive income transaction for the C4 witness. -/
def c4Row : Txn :=
  ⟨3000, 1, 10, 2024, 4, 100, none, none, ClearedStatus.UNCLEARED, false, false,
    none, none, false⟩

/-- Store for the C4 witness. -/
def c4Db : Db := { engDb with txns := [c4Row] }

/-- The view returned on the C4 witness store. -/
def c4View : BudgetViewResponse := ⟨4, 2024, -100, 100, 200, 0, 200⟩

/-- Witness for C4: on a store with one 100 income transaction and 200
assigned, the view reports totalAssigned as the per-category sum. -/
theorem getBudgetView_c4_witness :
    getBudgetView c4Db 1 1 2024 4 = .ok c4View ∧
    c4View.totalAssigned = ((budgetCategories c4Db 1).map
      (fun c => assignedFor c4Db.entries c.id 2024 4)).sum :=
  ⟨by with_unfolding_all rfl,
   (getBudgetView_c4 c4Db 1 1 2024 4 c4View (by decide) (by decide)
      (by with_unfolding_all rfl)).1⟩

/-- Positive uncategorized split transaction (children 4 and 6) for the C4
counterexample. -/
def c4CexRow : Txn :=
  ⟨2000, 1, 10, 2024, 4, 10, none, none, ClearedStatus.UNCLEARED, false, false,
    none, none, true⟩

/-- Store for the C4 counterexample. -/
def c4CexDb : Db :=
  { engDb with txns := [c4CexRow], splits := [⟨2000, 100, 4⟩, ⟨2000, 102, 6⟩] }

/-- The view returned on the C4 counterexample store. -/
def c4CexView : BudgetViewResponse := ⟨4, 2024, -200, 0, 200, 10, 210⟩

/-- Counterexample for C4 as stated: a positive uncategorized non-transfer
SPLIT transaction is excluded from the code's totalIncome, so totalIncome
differs from the claim's "sum of the month's uncategorized, positive,
non-transfer transactions". -/
theorem getBudgetView_c4_cex :
    getBudgetView c4CexDb 1 1 2024 4 = .ok c4CexView ∧
    c4CexView.totalIncome ≠ specTotalIncome c4CexDb 1 2024 4 := by
  refine ⟨by with_unfolding_all rfl, ?_⟩
  have h1 : c4CexView.totalIncome = 0 := rfl
  have h2 : specTotalIncome c4CexDb 1 2024 4 = 10 := by with_unfolding_all rfl
  rw [h1, h2]
  norm_num

/-- Witness for C10: updating only the amount of a transaction on a checking
account succeeds and leaves the BudgetEntry table untouched. -/
theorem updateTransaction_c10_witness :
    updateTransaction c10Db 1 5000 c10Dto = .ok (c10Db1, c10Row1) ∧
    c10Db1.entries = c10Db.entries :=
  ⟨by with_unfolding_all rfl,
   (updateTransaction_c10 c10Db 1 5000 c10Dto c10Db1 c10Row1 c10Row0
      ⟨10, 1, AccountType.CHECKING, true, none⟩ (by with_unfolding_all rfl)
      (by with_unfolding_all rfl) (by decide)
      (fun aid a h1 _ => absurd h1 (by simp [c10Dto]))
      (by with_unfolding_all rfl)).1⟩

/-- Update request for the C10 counterexample: a new payee name on a
transaction whose account is not a credit card. -/
def c10CexDto : UpdateTransactionDto := { payeeName := some "Coffee" }

/-- The row after the C10 counterexample update: it points at the newly
created payee. -/
def c10CexRow1 : Txn :=
  ⟨5000, 1, 10, 2024, 4, -40, some 1000, some 100, ClearedStatus.UNCLEARED, false,
    false, none, none, false⟩

/-- Post-update store of the C10 counterexample: a Payee row was created in
the same successful call. -/
def c10CexDb1 : Db :=
  { c10Db with payees := [⟨1000, 1, "Coffee"⟩], txns := [c10CexRow1], nextId := 1001 }

/-- Counterexample for C10 as stated: a successful update of a transaction
on a checking account that supplies a new payeeName creates a Payee row, so
more than the transaction row itself changes (the BudgetEntry table is
still untouched). -/
theorem updateTransaction_c10_cex :
    updateTransaction c10Db 1 5000 c10CexDto = .ok (c10CexDb1, c10CexRow1) ∧
    c10CexDb1.payees ≠ c10Db.payees ∧
    c10CexDb1.entries = c10Db.entries :=
  ⟨by with_unfolding_all rfl, by simp [c10CexDb1, c10Db, engDb], rfl⟩

end BudgetApp
